import Mathlib

/-!
# Verification of the chaincred contribution-weighted skill scoring engine

Shallow embedding, in Lean 4, of the scoring core of the `chaincred`
repository: the contribution-weighted scorer (`src/contribution_scorer.py`),
the repository-level skill-score formula (`src/scoring.py`, `src/config.py`),
the commit aggregator (`src/repos/analyzer.py`), the rule-based skill
evaluator (`src/scoring/skill_scorer.py`) and the shared helpers
(`src/shared/utils.py`).  Python floats are modelled as rationals; Python's
`round` (banker's rounding) is modelled exactly on rationals.
-/

/-- Python's `round` to an integer: round-half-to-even on rationals. -/
def pyRoundInt (q : ℚ) : ℤ :=
  let f : ℤ := ⌊q⌋
  let r : ℚ := q - f
  if r < 1/2 then f
  else if 1/2 < r then f + 1
  else if f % 2 = 0 then f else f + 1

/-- Python's `round(x, 2)`. -/
def round2 (q : ℚ) : ℚ := (pyRoundInt (q * 100) : ℚ) / 100

/-- Python's `round(x, 1)`. -/
def round1 (q : ℚ) : ℚ := (pyRoundInt (q * 10) : ℚ) / 10

/-! ## `src/contribution_scorer.py` — `ContributionWeightedScorer`

`THRESHOLDS` and `CAPS` are the class constants; `evidence` dictionaries are
modelled by their three lists (`files`, `imports`, `patterns`), and the
formatted `reason` strings by an inductive carrying the interpolated data. -/

namespace ContributionWeightedScorer

/-- `THRESHOLDS` of `ContributionWeightedScorer` (class constant). -/
def THRESHOLDS (tier : String) : ℚ :=
  if tier = "insufficient" then 5
  else if tier = "low" then 10
  else if tier = "medium" then 30
  else if tier = "high" then 70
  else 0

/-- `CAPS` of `ContributionWeightedScorer` (class constant). -/
def CAPS (tier : String) : ℚ :=
  if tier = "insufficient" then 0
  else if tier = "low" then 40
  else if tier = "medium" then 60
  else if tier = "high" then 100
  else 0

/-- Evidence dictionary: `files`, `imports`, `patterns` lists. -/
structure Evidence where
  files : List String
  imports : List String
  patterns : List String
deriving DecidableEq, Repr

/-- The `reason` strings produced by `apply_contribution_cap`, with the
data interpolated into each format string. -/
inductive CapReason
  /-- `"Contribution too low ({pct}% < {threshold}%)"` -/
  | tooLow (pct threshold : ℚ)
  /-- `"Capped due to {pct}% contribution (max {cap})"` -/
  | capped (pct cap : ℚ)
  /-- `"Full score applied ({pct}% contribution)"` -/
  | fullScore (pct : ℚ)
deriving DecidableEq, Repr

/-- `get_contribution_tier` (src/contribution_scorer.py:38-55). -/
def get_contribution_tier (contribution_pct : ℚ) : String :=
  if contribution_pct < THRESHOLDS "insufficient" then "insufficient"
  else if contribution_pct < THRESHOLDS "low" then "low"
  else if contribution_pct < THRESHOLDS "medium" then "medium"
  else "high"

/-- `calculate_base_score` (src/contribution_scorer.py:57-84). -/
def calculate_base_score (evidence : Evidence) : ℚ :=
  let score : ℚ := 0
  let num_files := evidence.files.length
  let score := if num_files > 0 then score + min 40 (num_files * 5 : ℚ) else score
  let num_imports := evidence.imports.length
  let score := if num_imports > 0 then score + min 30 (num_imports * 10 : ℚ) else score
  let num_patterns := evidence.patterns.length
  let score := if num_patterns > 0 then score + min 30 (num_patterns * 10 : ℚ) else score
  min 100 score

/-- `apply_contribution_cap` (src/contribution_scorer.py:86-110). -/
def apply_contribution_cap (base_score contribution_pct : ℚ) :
    ℚ × String × CapReason :=
  let tier := get_contribution_tier contribution_pct
  let cap := CAPS tier
  if tier = "insufficient" then
    (0, tier, .tooLow contribution_pct (THRESHOLDS "insufficient"))
  else
    let capped_score := min base_score cap
    if capped_score < base_score then
      (capped_score, tier, .capped contribution_pct cap)
    else
      (capped_score, tier, .fullScore contribution_pct)

/-- Result dictionary of `score_skill`. -/
structure SkillScoreRecord where
  skill : String
  verified : Bool
  base_score : ℚ
  final_score : ℚ
  tier : String
  contribution_pct : ℚ
  reason : CapReason
  evidence : Evidence
  files_count : Nat
  imports_count : Nat
  patterns_count : Nat
deriving DecidableEq, Repr

/-- `score_skill` (src/contribution_scorer.py:112-147). -/
def score_skill (skill : String) (evidence : Evidence) (contribution_pct : ℚ) :
    SkillScoreRecord :=
  let base_score := calculate_base_score evidence
  let capped := apply_contribution_cap base_score contribution_pct
  let verified := evidence.files.length > 0 || evidence.imports.length > 0 ||
                  evidence.patterns.length > 0
  { skill := skill
    verified := verified
    base_score := base_score
    final_score := capped.1
    tier := capped.2.1
    contribution_pct := contribution_pct
    reason := capped.2.2
    evidence := evidence
    files_count := evidence.files.length
    imports_count := evidence.imports.length
    patterns_count := evidence.patterns.length }

/-- A per-repository record as consumed by `aggregate_scores`: only the
fields the aggregator reads (`tier`, `contribution_pct`, `final_score`,
`verified`). -/
structure RepoScore where
  final_score : ℚ
  tier : String
  contribution_pct : ℚ
  verified : Bool
deriving DecidableEq, Repr

/-- Result dictionary of `aggregate_scores` (the fields all branches set;
`repo_details` is the retained-record list, empty in the early returns). -/
structure AggregateResult where
  final_score : ℚ
  verified : Bool
  repos_used : Nat
  repos_insufficient : Nat
  weighted_avg : ℚ
  repo_details : List RepoScore
deriving DecidableEq, Repr

/-- `aggregate_scores` (src/contribution_scorer.py:149-201). -/
def aggregate_scores (repo_scores : List RepoScore) : AggregateResult :=
  if repo_scores.isEmpty then
    { final_score := 0, verified := false, repos_used := 0,
      repos_insufficient := 0, weighted_avg := 0, repo_details := [] }
  else
    let valid_scores := repo_scores.filter (fun s => s.tier ≠ "insufficient")
    let insufficient_count := repo_scores.length - valid_scores.length
    if valid_scores.isEmpty then
      { final_score := 0, verified := false, repos_used := 0,
        repos_insufficient := insufficient_count, weighted_avg := 0,
        repo_details := [] }
    else
      let total_weight := (valid_scores.map (fun s => s.contribution_pct)).sum
      let weighted_avg :=
        if total_weight = 0 then
          (valid_scores.map (fun s => s.final_score)).sum / valid_scores.length
        else
          (valid_scores.map (fun s => s.final_score * s.contribution_pct)).sum
            / total_weight
      { final_score := round1 weighted_avg
        verified := valid_scores.any (fun s => s.verified)
        repos_used := valid_scores.length
        repos_insufficient := insufficient_count
        weighted_avg := round1 weighted_avg
        repo_details := valid_scores }

end ContributionWeightedScorer

/-! ## `src/config.py` — configuration constants -/

namespace Config

/-- `WEIGHTS` (src/config.py:6-11). -/
def WEIGHTS (k : String) : ℚ :=
  if k = "code_quality" then 35/100
  else if k = "authorship_confidence" then 25/100
  else if k = "commit_maturity" then 20/100
  else if k = "project_complexity" then 10/100
  else 0

/-- `CODE_QUALITY` (src/config.py:22-28). -/
def CODE_QUALITY (k : String) : ℚ :=
  if k = "message_quality_weight" then 40
  else if k = "churn_rate_weight" then 30
  else if k = "file_diversity_weight" then 30
  else if k = "min_meaningful_words" then 3
  else if k = "diversity_multiplier" then 10
  else 0

/-- `COMMIT_MATURITY` (src/config.py:31-37). -/
def COMMIT_MATURITY (k : String) : ℚ :=
  if k = "optimal_min_complexity" then 50
  else if k = "optimal_max_complexity" then 200
  else if k = "optimal_min_interval_days" then 1
  else if k = "optimal_max_interval_days" then 7
  else if k = "optimal_interval_center" then 4
  else 0

/-- `PROJECT_COMPLEXITY` (src/config.py:40-46). -/
def PROJECT_COMPLEXITY (k : String) : ℚ :=
  if k = "file_coverage_weight" then 40
  else if k = "tech_diversity_weight" then 30
  else if k = "volume_weight" then 30
  else if k = "diversity_multiplier" then 15
  else if k = "volume_divisor" then 50
  else 0

end Config

/-! ## `src/shared/utils.py` — shared validation and authorship helpers -/

/-- `validate_score` (src/shared/utils.py:49-68): returns the score when it
lies in `[0, 100]`, otherwise raises `ValueError` naming the score. -/
def validate_score (score : ℚ) (name : String) : Except String ℚ :=
  if 0 ≤ score ∧ score ≤ 100 then .ok score else .error name

/-- `calculate_authorship_percentage` (src/shared/utils.py:93-112). -/
def calculate_authorship_percentage
    (author_lines_modified total_lines_modified : ℕ) : ℚ :=
  if total_lines_modified = 0 then 0
  else
    let percentage : ℚ :=
      ((author_lines_modified : ℚ) / (total_lines_modified : ℚ)) * 100
    min percentage 100

/-! ## `src/scoring.py` — the repository-level skill-score formula

`contributor_data` dictionaries are modelled by the `ContributorData`
structure holding exactly the fields the aggregator
(`src/repos/analyzer.py`) stores.  Commit messages are strings; Python's
`msg.split()` is `pySplit`.  Commit timestamps are modelled as seconds, and
`(t2 - t1).days` is flooring division by 86400 (the semantics of
`datetime.timedelta.days`). -/

/-- Python's whitespace `str.split()` (no argument): split on whitespace,
dropping empty pieces. -/
def pySplit (s : String) : List String :=
  (s.split Char.isWhitespace).filter (· ≠ "")

/-- A contributor record, as accumulated by `analyze_repository`
(src/repos/analyzer.py:38-49 plus the post-pass fields of lines 95-101). -/
structure ContributorData where
  commits : ℕ
  lines_added : ℕ
  lines_deleted : ℕ
  files_changed : List String
  commit_messages : List String
  file_types : List (String × ℕ)
  commit_timestamps : List ℤ
  complexity_metrics : List ℕ
  churn_rate : ℚ
  is_bot : Bool
  total_lines_modified_in_repo : ℕ
deriving Repr

/-- `calculate_code_quality` (src/scoring.py:12-40). -/
def calculate_code_quality (contributor_data : ContributorData) : ℚ :=
  let messages := contributor_data.commit_messages
  let meaningful_commits : ℕ :=
    (messages.filter
      (fun msg => (Config.CODE_QUALITY "min_meaningful_words" : ℚ) <
        ((pySplit msg).length : ℚ))).length
  let message_quality : ℚ :=
    ((meaningful_commits : ℚ) / (max messages.length 1 : ℕ)) *
      Config.CODE_QUALITY "message_quality_weight"
  let churn_score : ℚ :=
    (1 - contributor_data.churn_rate) * Config.CODE_QUALITY "churn_rate_weight"
  let file_diversity : ℚ :=
    min ((contributor_data.file_types.length : ℚ) *
           Config.CODE_QUALITY "diversity_multiplier")
        (Config.CODE_QUALITY "file_diversity_weight")
  min (message_quality + churn_score + file_diversity) 100

/-- `calculate_authorship_confidence` (src/scoring.py:43-69); the
`total_commits` argument is unused by the body, as in the source. -/
def calculate_authorship_confidence (contributor_data : ContributorData)
    (_total_commits : ℕ) : ℚ :=
  let author_lines :=
    contributor_data.lines_added + contributor_data.lines_deleted
  let total_lines := contributor_data.total_lines_modified_in_repo
  let authorship_pct := calculate_authorship_percentage author_lines total_lines
  min authorship_pct 100

/-- `calculate_commit_maturity` (src/scoring.py:72-121). -/
def calculate_commit_maturity (contributor_data : ContributorData) : ℚ :=
  let avg_complexity : ℚ :=
    ((contributor_data.complexity_metrics.map (fun n => (n : ℚ))).sum) /
      (max contributor_data.complexity_metrics.length 1 : ℕ)
  let min_complexity := Config.COMMIT_MATURITY "optimal_min_complexity"
  let max_complexity := Config.COMMIT_MATURITY "optimal_max_complexity"
  let complexity_score : ℚ :=
    if min_complexity ≤ avg_complexity ∧ avg_complexity ≤ max_complexity then 60
    else if avg_complexity < min_complexity then 40
    else max 20 (60 - (avg_complexity - max_complexity) / 10)
  let timestamps := contributor_data.commit_timestamps
  let consistency_score : ℚ :=
    if 1 < timestamps.length then
      let timestamps_sorted := timestamps.mergeSort (fun a b => a ≤ b)
      let intervals : List ℤ :=
        List.zipWith (fun a b => Int.fdiv (b - a) 86400)
          timestamps_sorted timestamps_sorted.tail
      let avg_interval : ℚ := ((intervals.map (fun n => (n : ℚ))).sum) /
        (intervals.length : ℚ)
      let min_interval := Config.COMMIT_MATURITY "optimal_min_interval_days"
      let max_interval := Config.COMMIT_MATURITY "optimal_max_interval_days"
      let center := Config.COMMIT_MATURITY "optimal_interval_center"
      if min_interval ≤ avg_interval ∧ avg_interval ≤ max_interval then 40
      else max 10 (40 - |avg_interval - center| * 2)
    else 20
  min (complexity_score + consistency_score) 100

/-- `calculate_project_complexity` (src/scoring.py:124-161); the
`file_extensions` argument is unused by the body, as in the source. -/
def calculate_project_complexity (contributor_data : ContributorData)
    (all_files : List String) (_file_extensions : List (String × ℕ)) : ℚ :=
  let files_touched : ℚ :=
    (contributor_data.files_changed.length : ℚ) /
      (max all_files.length 1 : ℕ)
  let file_coverage : ℚ :=
    min (files_touched * 100) (Config.PROJECT_COMPLEXITY "file_coverage_weight")
  let tech_diversity : ℚ :=
    min ((contributor_data.file_types.length : ℚ) *
          Config.PROJECT_COMPLEXITY "diversity_multiplier")
        (Config.PROJECT_COMPLEXITY "tech_diversity_weight")
  let total_lines := contributor_data.lines_added
  let volume_score : ℚ :=
    min ((total_lines : ℚ) / Config.PROJECT_COMPLEXITY "volume_divisor")
        (Config.PROJECT_COMPLEXITY "volume_weight")
  min (file_coverage + tech_diversity + volume_score) 100

/-- Result dictionary of `calculate_skill_score` (src/scoring.py:214-220). -/
structure ScoreDict where
  skill_score : ℚ
  code_quality : ℚ
  authorship_confidence : ℚ
  commit_maturity : ℚ
  project_complexity : ℚ
deriving Repr

/-- `calculate_skill_score` (src/scoring.py:164-220): computes the four
sub-scores, validates each and the weighted total in `[0, 100]` (a
`ValueError` is the `.error` case), and reports everything rounded to two
decimals. -/
def calculate_skill_score (contributor_data : ContributorData)
    (total_commits : ℕ) (all_files : List String)
    (file_extensions : List (String × ℕ)) : Except String ScoreDict :=
  match validate_score (calculate_code_quality contributor_data)
      "Code Quality" with
  | .error e => .error e
  | .ok code_quality =>
    match validate_score
        (calculate_authorship_confidence contributor_data total_commits)
        "Authorship Confidence" with
    | .error e => .error e
    | .ok authorship_confidence =>
      match validate_score (calculate_commit_maturity contributor_data)
          "Commit Maturity" with
      | .error e => .error e
      | .ok commit_maturity =>
        match validate_score
            (calculate_project_complexity contributor_data all_files
              file_extensions) "Project Complexity" with
        | .error e => .error e
        | .ok project_complexity =>
          match validate_score
              (Config.WEIGHTS "code_quality" * code_quality +
               Config.WEIGHTS "authorship_confidence" * authorship_confidence +
               Config.WEIGHTS "commit_maturity" * commit_maturity +
               Config.WEIGHTS "project_complexity" * project_complexity)
              "Final Skill Score" with
          | .error e => .error e
          | .ok skill_score =>
            .ok { skill_score := round2 skill_score
                  code_quality := round2 code_quality
                  authorship_confidence := round2 authorship_confidence
                  commit_maturity := round2 commit_maturity
                  project_complexity := round2 project_complexity }

/-! ## `src/repos/analyzer.py` — the commit aggregator

A `Commit` is the pydriller record as the aggregator reads it.  Python sets
are modelled as duplicate-free lists (insertion order preserved),
`defaultdict`s as association lists with append-on-first-sight, matching
the insertion-ordered Python dict.  The static-analysis stages and the
console printing of `analyze_repository` feed only the reporting layer and
are outside the aggregation core embedded here. -/

/-- A pydriller commit as consumed by `analyze_repository`: author
identity, committer timestamp (seconds), insertion/deletion counts,
message, modified-file names. -/
structure Commit where
  author_name : String
  author_email : String
  committer_date : ℤ
  insertions : ℕ
  deletions : ℕ
  msg : String
  modified_files : List String
deriving DecidableEq, Repr

/-- `BOT_PATTERNS` (src/shared/utils.py:9-21). -/
def BOT_PATTERNS : List String :=
  ["bot", "dependabot", "github-actions", "renovate", "[bot]",
   "semantic-release", "greenkeeper", "snyk-bot", "codecov", "travis",
   "circleci"]

/-- Python's `pattern in s` substring test. -/
def containsSubstr (s pattern : String) : Bool :=
  decide (List.IsInfix pattern.toList s.toList)

/-- Python's `str.lower()`, as a character-wise case map. -/
def pyToLower (s : String) : String := String.mk (s.toList.map Char.toLower)

/-- `is_bot_user` (src/shared/utils.py:24-46). -/
def is_bot_user (author_name : String) (author_email : String) : Bool :=
  let author_lower := pyToLower author_name
  let email_lower := if author_email ≠ "" then pyToLower author_email else ""
  if BOT_PATTERNS.any (fun pattern =>
      containsSubstr author_lower pattern || containsSubstr email_lower pattern)
  then true
  else containsSubstr email_lower "noreply" || containsSubstr email_lower "no-reply"

/-- `pathlib.Path(name).suffix`: the substring from the last dot, when
that dot is neither the first nor the last character; `""` otherwise.
(`modified_file.filename` is a bare file name, so `name` is the whole
string.) -/
def pathSuffix (name : String) : String :=
  let cs := name.toList
  match cs.reverse.indexOf? '.' with
  | none => ""
  | some j =>
    let i := cs.length - 1 - j
    if 0 < i ∧ i < cs.length - 1 then String.mk (cs.drop i) else ""

/-- `Path(filename).suffix or 'no_ext'` (src/repos/analyzer.py:91). -/
def extKey (filename : String) : String :=
  if pathSuffix filename = "" then "no_ext" else pathSuffix filename

/-- Python `set.add`: sets are modelled as duplicate-free lists. -/
def addToSet (s : List String) (x : String) : List String :=
  if x ∈ s then s else s ++ [x]

/-- `histogram[key] += 1` on a `defaultdict(int)`. -/
def bumpCount (h : List (String × ℕ)) (k : String) : List (String × ℕ) :=
  if h.any (fun p => p.1 = k) then
    h.map (fun p => if p.1 = k then (p.1, p.2 + 1) else p)
  else h ++ [(k, 1)]

/-- The `defaultdict` initial contributor record
(src/repos/analyzer.py:38-49).  `total_lines_modified_in_repo` is stamped
by the post-pass; before it the Python dict lacks the key, modelled as 0
here. -/
def defaultContributor : ContributorData :=
  { commits := 0, lines_added := 0, lines_deleted := 0, files_changed := [],
    commit_messages := [], file_types := [], commit_timestamps := [],
    complexity_metrics := [], churn_rate := 0, is_bot := false,
    total_lines_modified_in_repo := 0 }

/-- `contributors[author]` mutation on the `defaultdict`: apply `f` to the
existing record, creating the default record on first sight (appended, as
Python dicts preserve insertion order). -/
def updateContrib (l : List (String × ContributorData)) (k : String)
    (f : ContributorData → ContributorData) : List (String × ContributorData) :=
  if l.any (fun p => p.1 = k) then
    l.map (fun p => if p.1 = k then (p.1, f p.2) else p)
  else l ++ [(k, f defaultContributor)]

/-- The aggregation state of `analyze_repository`
(src/repos/analyzer.py:51-56 plus the contributors map). -/
structure RepoAnalysis where
  contributors : List (String × ContributorData)
  total_commits : ℕ
  total_commits_excluding_bots : ℕ
  all_files : List String
  file_extensions : List (String × ℕ)
  total_lines_modified : ℕ
  bot_count : ℕ
deriving Repr

/-- The per-contributor mutations of the commit loop
(src/repos/analyzer.py:64-92) for one commit. -/
def applyCommitData (c : Commit) (cd : ContributorData) : ContributorData :=
  { cd with
    is_bot := is_bot_user c.author_name c.author_email
    commits := cd.commits + 1
    lines_added := cd.lines_added + c.insertions
    lines_deleted := cd.lines_deleted + c.deletions
    commit_messages := cd.commit_messages ++ [c.msg]
    commit_timestamps := cd.commit_timestamps ++ [c.committer_date]
    complexity_metrics := cd.complexity_metrics ++ [c.insertions + c.deletions]
    files_changed := c.modified_files.foldl addToSet cd.files_changed
    file_types := c.modified_files.foldl
      (fun h f => bumpCount h (extKey f)) cd.file_types }

/-- The body of the commit loop (src/repos/analyzer.py:58-93) for one
commit. -/
def processCommit (st : RepoAnalysis) (c : Commit) : RepoAnalysis :=
  let is_bot := is_bot_user c.author_name c.author_email
  { contributors := updateContrib st.contributors c.author_name (applyCommitData c)
    total_commits := st.total_commits + 1
    total_commits_excluding_bots :=
      st.total_commits_excluding_bots + (if is_bot then 0 else 1)
    bot_count := st.bot_count + (if is_bot then 1 else 0)
    all_files := c.modified_files.foldl addToSet st.all_files
    file_extensions := c.modified_files.foldl
      (fun h f => bumpCount h (extKey f)) st.file_extensions
    total_lines_modified :=
      st.total_lines_modified + (c.insertions + c.deletions) }

/-- The empty aggregation state (src/repos/analyzer.py:38-56). -/
def initRepoAnalysis : RepoAnalysis :=
  { contributors := [], total_commits := 0, total_commits_excluding_bots := 0,
    all_files := [], file_extensions := [], total_lines_modified := 0,
    bot_count := 0 }

/-- `analyze_repository` (src/repos/analyzer.py:17-144), restricted to the
commit-aggregation core: traverse the commits in order, then the post-pass
(lines 95-101) stores each contributor's churn rate and the
repository-wide `total_lines_modified`. -/
def analyze_repository (commits : List Commit) : RepoAnalysis :=
  let st := commits.foldl processCommit initRepoAnalysis
  { st with contributors := st.contributors.map (fun p =>
      (p.1,
        { p.2 with
          churn_rate := (p.2.lines_deleted : ℚ) /
            (max (p.2.lines_added + p.2.lines_deleted) 1 : ℕ)
          total_lines_modified_in_repo := st.total_lines_modified })) }


/-! ## `src/scoring/skill_scorer.py` — the rule-based skill evaluator

The `SkillScorer` constructor scans the repository
(`detect_frameworks`, `calculate_complexity`, `count_django_apps`,
`os.walk`-based pattern and file searches).  Those filesystem reads are
modelled by a `ScorerEnv`: the framework table as computed by
`detect_frameworks`, the complexity metrics, and the three scanning
primitives (`_count_code_patterns`, `_check_file_patterns`, and the file
enumeration behind `_get_language_stats`) as abstract functions of the
repository content.  Each criterion record carries a human-readable
`reason` string in the source (with counts interpolated); the reasons are
reporting-only and not modelled. -/

/-- The `signals` dictionary of one detected framework
(src/code_analysis/language_detector.py:135-139). -/
structure FrameworkSignals where
  dependencies_found : List String
  files_found : List String
  patterns_found : List String
deriving DecidableEq, Repr

/-- One entry of the `detect_frameworks` result
(src/code_analysis/language_detector.py:172-176). -/
structure FrameworkInfo where
  confidence : ℚ
  signals : FrameworkSignals
deriving DecidableEq, Repr

/-- The repository-derived inputs of `SkillScorer.__init__`
(src/scoring/skill_scorer.py:17-21): the framework table, the complexity
metrics, and the filesystem-scanning primitives as abstract functions. -/
structure ScorerEnv where
  frameworks : List (String × FrameworkInfo)
  code_lines : ℕ
  avg_function_length : ℚ
  django_app_count : ℕ
  countPatterns : List String → ℕ
  filePatternsFound : List String → List String
  treeFiles : List String

/-- `'name' in frameworks` / `frameworks['name']` lookup. -/
def fwLookup (fws : List (String × FrameworkInfo)) (k : String) :
    Option FrameworkInfo :=
  (fws.find? (fun p => p.1 = k)).map (fun p => p.2)

/-- The file count of `_get_language_stats`
(src/scoring/skill_scorer.py:360-372) for one extension list. -/
def langFileCount (env : ScorerEnv) (extensions : List String) : ℕ :=
  (env.treeFiles.filter (fun f => extensions.any (fun e => f.endsWith e))).length

/-- One breakdown record `{criterion, score}`; the source's `reason`
string is reporting-only and not modelled. -/
structure Criterion where
  criterion : String
  score : ℕ
deriving DecidableEq, Repr

/-- An evaluator result `{total_score, max_score, percentage, breakdown}`. -/
structure SkillResult where
  total_score : ℕ
  max_score : ℕ
  percentage : ℕ
  breakdown : List Criterion
deriving DecidableEq, Repr

/-- `validate_skill_breakdown` (src/shared/utils.py:71-90) as the check it
performs: every criterion score within `[0, max_per_criterion]`. -/
def validate_skill_breakdown (breakdown : List Criterion)
    (max_per_criterion : ℕ) : Bool :=
  breakdown.all (fun c => decide (0 ≤ c.score) && decide (c.score ≤ max_per_criterion))

/-- The `count >= t1 / t2 / t3` → `20 / 12 / 6 / 0` threshold ladder the
evaluators repeat for their count-based criteria. -/
def tieredScore (count t1 t2 t3 : ℕ) : ℕ :=
  if t1 ≤ count then 20 else if t2 ≤ count then 12 else if t3 ≤ count then 6
  else 0

/-- `SkillScorer` state after `__init__` (src/scoring/skill_scorer.py:17-26). -/
structure SkillScorer where
  env : ScorerEnv
  contributor_data : ContributorData
  authorship_percentage : ℚ

/-- `SkillScorer.__init__`: stores the repository scan and computes the
authorship ratio with the global formula (lines 23-26). -/
def SkillScorer.init (env : ScorerEnv) (cd : ContributorData) : SkillScorer :=
  { env := env
    contributor_data := cd
    authorship_percentage := calculate_authorship_percentage
      (cd.lines_added + cd.lines_deleted) cd.total_lines_modified_in_repo }

/-- An all-zero single-record result, as returned when a presence
criterion fails. -/
def zeroResult (name : String) : SkillResult :=
  { total_score := 0, max_score := 100, percentage := 0,
    breakdown := [⟨name, 0⟩] }

/-- `_evaluate_react` (src/scoring/skill_scorer.py:108-186). -/
def SkillScorer.evalReact (s : SkillScorer) : SkillResult :=
  let presence_ok : Bool := match fwLookup s.env.frameworks "React" with
    | some fw => decide (60 ≤ fw.confidence) && !fw.signals.dependencies_found.isEmpty
    | none => false
  if presence_ok then
    let hooks_count := s.env.countPatterns
      ["useState(", "useEffect(", "useContext(", "useReducer("]
    let hook_score := tieredScore hooks_count 10 5 1
    let loc := s.env.code_lines
    let size_score := tieredScore loc 3000 1500 500
    let commits := s.contributor_data.commits
    let maturity_score := tieredScore commits 30 15 5
    let auth_score : ℕ :=
      if 70 ≤ s.authorship_percentage then 20
      else if 50 ≤ s.authorship_percentage then 12
      else if 30 ≤ s.authorship_percentage then 6 else 0
    { total_score := 20 + hook_score + size_score + maturity_score + auth_score
      max_score := 100
      percentage := 20 + hook_score + size_score + maturity_score + auth_score
      breakdown := [⟨"react_presence", 20⟩, ⟨"hooks_usage", hook_score⟩,
        ⟨"project_size", size_score⟩, ⟨"git_maturity", maturity_score⟩,
        ⟨"authorship_confidence", auth_score⟩] }
  else zeroResult "react_presence"

/-- `_evaluate_django` (src/scoring/skill_scorer.py:188-266). -/
def SkillScorer.evalDjango (s : SkillScorer) : SkillResult :=
  let presence_ok : Bool := match fwLookup s.env.frameworks "Django" with
    | some fw => decide (60 ≤ fw.confidence) && !fw.signals.dependencies_found.isEmpty
    | none => false
  if presence_ok then
    let app_count := s.env.django_app_count
    let app_score := tieredScore app_count 3 2 1
    let orm_count := s.env.countPatterns
      ["models.Model", ".objects.", ".filter(", ".get("]
    let orm_score := tieredScore orm_count 10 5 1
    let rest_count := s.env.countPatterns
      ["APIView", "Serializer", "status.HTTP_", "ViewSet"]
    let rest_score := tieredScore rest_count 8 4 1
    let auth_score : ℕ :=
      if 70 ≤ s.authorship_percentage then 20
      else if 50 ≤ s.authorship_percentage then 12
      else if 30 ≤ s.authorship_percentage then 6 else 0
    { total_score := 20 + app_score + orm_score + rest_score + auth_score
      max_score := 100
      percentage := 20 + app_score + orm_score + rest_score + auth_score
      breakdown := [⟨"django_presence", 20⟩, ⟨"app_structure", app_score⟩,
        ⟨"orm_usage", orm_score⟩, ⟨"rest_practices", rest_score⟩,
        ⟨"authorship_confidence", auth_score⟩] }
  else zeroResult "django_presence"

/-- `_evaluate_nodejs` (src/scoring/skill_scorer.py:268-346). -/
def SkillScorer.evalNodejs (s : SkillScorer) : SkillResult :=
  let presence_ok : Bool := match fwLookup s.env.frameworks "NodeJS" with
    | some fw => decide (60 ≤ fw.confidence) && !fw.signals.dependencies_found.isEmpty
    | none => false
  if presence_ok then
    let api_count := s.env.countPatterns
      ["app.get(", "app.post(", "app.put(", "app.delete(", "router."]
    let api_score := tieredScore api_count 15 8 3
    let middleware_count := s.env.countPatterns ["app.use(", "next(", "middleware"]
    let mw_score := tieredScore middleware_count 10 5 1
    let commits := s.contributor_data.commits
    let maturity_score := tieredScore commits 25 12 5
    let auth_score : ℕ :=
      if 70 ≤ s.authorship_percentage then 20
      else if 50 ≤ s.authorship_percentage then 12
      else if 30 ≤ s.authorship_percentage then 6 else 0
    { total_score := 20 + api_score + mw_score + maturity_score + auth_score
      max_score := 100
      percentage := 20 + api_score + mw_score + maturity_score + auth_score
      breakdown := [⟨"node_presence", 20⟩, ⟨"api_design", api_score⟩,
        ⟨"middleware_usage", mw_score⟩, ⟨"git_maturity", maturity_score⟩,
        ⟨"authorship_confidence", auth_score⟩] }
  else zeroResult "node_presence"

/-- `_evaluate_tailwind` (src/scoring/skill_scorer.py:823-896): the
presence criterion only requires the framework key to exist. -/
def SkillScorer.evalTailwind (s : SkillScorer) : SkillResult :=
  let has_tailwind : Bool := (fwLookup s.env.frameworks "TailwindCSS").isSome
  if has_tailwind then
    let utility_count := s.env.countPatterns
      ["class=\"", "className=\"", "flex", "grid", "bg-", "text-"]
    let util_score := tieredScore utility_count 50 25 10
    let has_config : Bool :=
      0 < (s.env.filePatternsFound
        ["tailwind.config.js", "tailwind.config.ts"]).length
    let config_score : ℕ := if has_config then 20 else 0
    let loc := s.env.code_lines
    let scale_score := tieredScore loc 2000 1000 300
    let auth_score : ℕ :=
      if 70 ≤ s.authorship_percentage then 20
      else if 50 ≤ s.authorship_percentage then 12
      else if 30 ≤ s.authorship_percentage then 6 else 0
    { total_score := 20 + util_score + config_score + scale_score + auth_score
      max_score := 100
      percentage := 20 + util_score + config_score + scale_score + auth_score
      breakdown := [⟨"tailwind_presence", 20⟩, ⟨"utility_usage", util_score⟩,
        ⟨"config_customization", config_score⟩, ⟨"project_scale", scale_score⟩,
        ⟨"authorship_confidence", auth_score⟩] }
  else zeroResult "tailwind_presence"

/-- `_evaluate_python` (src/scoring/skill_scorer.py:376-463). -/
def SkillScorer.evalPython (s : SkillScorer) (file_count : ℕ) : SkillResult :=
  let presence_score := tieredScore file_count 10 5 1
  if presence_score = 0 then zeroResult "python_presence"
  else
    let patterns_found := (s.env.filePatternsFound
      ["__init__.py", "setup.py", "pyproject.toml", "requirements.txt"]).length
    let struct_score := tieredScore patterns_found 3 2 1
    let avg_func_len := s.env.avg_function_length
    let complex_score : ℕ :=
      if 0 < avg_func_len ∧ avg_func_len ≤ 40 then 20
      else if avg_func_len ≤ 70 then 12 else 6
    let commits := s.contributor_data.commits
    let maturity_score := tieredScore commits 25 12 5
    let auth_score : ℕ :=
      if 70 ≤ s.authorship_percentage then 20
      else if 50 ≤ s.authorship_percentage then 12
      else if 30 ≤ s.authorship_percentage then 6 else 0
    { total_score := presence_score + struct_score + complex_score +
        maturity_score + auth_score
      max_score := 100
      percentage := presence_score + struct_score + complex_score +
        maturity_score + auth_score
      breakdown := [⟨"python_presence", presence_score⟩,
        ⟨"python_structure", struct_score⟩,
        ⟨"function_complexity", complex_score⟩,
        ⟨"git_maturity", maturity_score⟩,
        ⟨"authorship_confidence", auth_score⟩] }

/-- `_evaluate_javascript` (src/scoring/skill_scorer.py:465-551). -/
def SkillScorer.evalJavascript (s : SkillScorer) (file_count : ℕ) : SkillResult :=
  let presence_score := tieredScore file_count 15 8 3
  if presence_score = 0 then zeroResult "js_presence"
  else
    let modern_count := s.env.countPatterns
      ["=>", "async ", "await ", "import ", "export "]
    let modern_score := tieredScore modern_count 20 10 3
    let mod_score : ℕ :=
      if 20 ≤ file_count then 20 else if 10 ≤ file_count then 12 else 6
    let commits := s.contributor_data.commits
    let maturity_score := tieredScore commits 30 15 6
    let auth_score : ℕ :=
      if 70 ≤ s.authorship_percentage then 20
      else if 50 ≤ s.authorship_percentage then 12
      else if 30 ≤ s.authorship_percentage then 6 else 0
    { total_score := presence_score + modern_score + mod_score +
        maturity_score + auth_score
      max_score := 100
      percentage := presence_score + modern_score + mod_score +
        maturity_score + auth_score
      breakdown := [⟨"js_presence", presence_score⟩,
        ⟨"modern_js_usage", modern_score⟩, ⟨"modularity", mod_score⟩,
        ⟨"git_maturity", maturity_score⟩,
        ⟨"authorship_confidence", auth_score⟩] }

/-- `_evaluate_typescript` (src/scoring/skill_scorer.py:553-635). -/
def SkillScorer.evalTypescript (s : SkillScorer) (file_count : ℕ) : SkillResult :=
  let presence_score := tieredScore file_count 10 5 1
  if presence_score = 0 then zeroResult "ts_presence"
  else
    let type_count := s.env.countPatterns
      [": string", ": number", "interface ", "type ", ": boolean"]
    let type_score := tieredScore type_count 20 10 3
    let has_tsconfig : Bool :=
      0 < (s.env.filePatternsFound ["tsconfig.json"]).length
    let config_score : ℕ := if has_tsconfig then 20 else 0
    let commits := s.contributor_data.commits
    let maturity_score := tieredScore commits 25 12 5
    let auth_score : ℕ :=
      if 70 ≤ s.authorship_percentage then 20
      else if 50 ≤ s.authorship_percentage then 12
      else if 30 ≤ s.authorship_percentage then 6 else 0
    { total_score := presence_score + type_score + config_score +
        maturity_score + auth_score
      max_score := 100
      percentage := presence_score + type_score + config_score +
        maturity_score + auth_score
      breakdown := [⟨"ts_presence", presence_score⟩,
        ⟨"type_safety", type_score⟩, ⟨"config_quality", config_score⟩,
        ⟨"git_maturity", maturity_score⟩,
        ⟨"authorship_confidence", auth_score⟩] }

/-- `_evaluate_c` (src/scoring/skill_scorer.py:637-728). -/
def SkillScorer.evalC (s : SkillScorer) : SkillResult :=
  let files := s.env.treeFiles.filter
    (fun f => [".c", ".h"].any (fun e => f.endsWith e))
  let file_count := files.length
  let presence_score := tieredScore file_count 10 5 1
  if presence_score = 0 then zeroResult "c_presence"
  else
    let pointer_count := s.env.countPatterns
      ["malloc(", "free(", "calloc(", "realloc("]
    let pointer_score := tieredScore pointer_count 15 7 3
    let c_files := (files.filter (fun f => f.endsWith ".c")).length
    let h_files := (files.filter (fun f => f.endsWith ".h")).length
    let pairs := min c_files h_files
    let mod_score : ℕ := if 5 ≤ pairs then 20 else if 3 ≤ pairs then 12 else 6
    let commits := s.contributor_data.commits
    let maturity_score := tieredScore commits 20 10 4
    let auth_score : ℕ :=
      if 70 ≤ s.authorship_percentage then 20
      else if 50 ≤ s.authorship_percentage then 12
      else if 30 ≤ s.authorship_percentage then 6 else 0
    { total_score := presence_score + pointer_score + mod_score +
        maturity_score + auth_score
      max_score := 100
      percentage := presence_score + pointer_score + mod_score +
        maturity_score + auth_score
      breakdown := [⟨"c_presence", presence_score⟩,
        ⟨"pointer_usage", pointer_score⟩, ⟨"modular_design", mod_score⟩,
        ⟨"git_maturity", maturity_score⟩,
        ⟨"authorship_confidence", auth_score⟩] }

/-- `_evaluate_cpp` (src/scoring/skill_scorer.py:730-821). -/
def SkillScorer.evalCpp (s : SkillScorer) (file_count : ℕ) : SkillResult :=
  let presence_score := tieredScore file_count 10 5 1
  if presence_score = 0 then zeroResult "cpp_presence"
  else
    let oop_count := s.env.countPatterns
      ["class ", "public:", "private:", "protected:", "virtual "]
    let oop_score := tieredScore oop_count 15 7 3
    let mem_count := s.env.countPatterns
      ["new ", "delete ", "unique_ptr", "shared_ptr", "make_unique",
       "make_shared"]
    let mem_score := tieredScore mem_count 10 5 2
    let commits := s.contributor_data.commits
    let maturity_score := tieredScore commits 25 12 5
    let auth_score : ℕ :=
      if 70 ≤ s.authorship_percentage then 20
      else if 50 ≤ s.authorship_percentage then 12
      else if 30 ≤ s.authorship_percentage then 6 else 0
    { total_score := presence_score + oop_score + mem_score +
        maturity_score + auth_score
      max_score := 100
      percentage := presence_score + oop_score + mem_score +
        maturity_score + auth_score
      breakdown := [⟨"cpp_presence", presence_score⟩,
        ⟨"oop_usage", oop_score⟩, ⟨"memory_management", mem_score⟩,
        ⟨"git_maturity", maturity_score⟩,
        ⟨"authorship_confidence", auth_score⟩] }

/-- The React branch of `evaluate_all_skills`
(src/scoring/skill_scorer.py:40-50): evaluate at confidence ≥ 60, emit a
one-record zero entry when detected below 60, nothing when undetected. -/
def SkillScorer.reactEntry (s : SkillScorer) : List (String × SkillResult) :=
  match fwLookup s.env.frameworks "React" with
  | some fw =>
    if 60 ≤ fw.confidence then [("React", s.evalReact)]
    else [("React", zeroResult "react_presence")]
  | none => []

/-- The Django branch (lines 52-62). -/
def SkillScorer.djangoEntry (s : SkillScorer) : List (String × SkillResult) :=
  match fwLookup s.env.frameworks "Django" with
  | some fw =>
    if 60 ≤ fw.confidence then [("Django", s.evalDjango)]
    else [("Django", zeroResult "django_presence")]
  | none => []

/-- The NodeJS branch (lines 64-74). -/
def SkillScorer.nodejsEntry (s : SkillScorer) : List (String × SkillResult) :=
  match fwLookup s.env.frameworks "NodeJS" with
  | some fw =>
    if 60 ≤ fw.confidence then [("NodeJS", s.evalNodejs)]
    else [("NodeJS", zeroResult "node_presence")]
  | none => []

/-- The TailwindCSS branch (lines 76-86). -/
def SkillScorer.tailwindEntry (s : SkillScorer) : List (String × SkillResult) :=
  match fwLookup s.env.frameworks "TailwindCSS" with
  | some fw =>
    if 60 ≤ fw.confidence then [("TailwindCSS", s.evalTailwind)]
    else [("TailwindCSS", zeroResult "tailwind_presence")]
  | none => []

/-- The Python branch (lines 91-92). -/
def SkillScorer.pythonEntry (s : SkillScorer) : List (String × SkillResult) :=
  let file_count := langFileCount s.env [".py"]
  if 0 < file_count then [("Python", s.evalPython file_count)] else []

/-- The JavaScript branch (lines 94-95). -/
def SkillScorer.javascriptEntry (s : SkillScorer) : List (String × SkillResult) :=
  let file_count := langFileCount s.env [".js", ".mjs", ".cjs"]
  if 0 < file_count then [("JavaScript", s.evalJavascript file_count)] else []

/-- The TypeScript branch (lines 97-98). -/
def SkillScorer.typescriptEntry (s : SkillScorer) : List (String × SkillResult) :=
  let file_count := langFileCount s.env [".ts", ".tsx"]
  if 0 < file_count then [("TypeScript", s.evalTypescript file_count)] else []

/-- The C branch (lines 100-101). -/
def SkillScorer.cEntry (s : SkillScorer) : List (String × SkillResult) :=
  let file_count := langFileCount s.env [".c", ".h"]
  if 0 < file_count then [("C", s.evalC)] else []

/-- The C++ branch (lines 103-104). -/
def SkillScorer.cppEntry (s : SkillScorer) : List (String × SkillResult) :=
  let file_count := langFileCount s.env [".cpp", ".hpp", ".cc", ".cxx"]
  if 0 < file_count then [("C++", s.evalCpp file_count)] else []

/-- `evaluate_all_skills` (src/scoring/skill_scorer.py:28-106): the
ordered union of the nine branches (an insertion-ordered dict in the
source). -/
def SkillScorer.evaluate_all_skills (s : SkillScorer) :
    List (String × SkillResult) :=
  s.reactEntry ++ s.djangoEntry ++ s.nodejsEntry ++ s.tailwindEntry ++
  s.pythonEntry ++ s.javascriptEntry ++ s.typescriptEntry ++ s.cEntry ++
  s.cppEntry

/-- The spec's authorship-confidence criterion (spec section 4.6, item 5),
modelled from the spec for the refinement comparison: tiered 20 at over
70 percent, 12 at over 50, 6 at over 30, else 0. -/
def authorshipCriterionSpec (p : ℚ) : ℕ :=
  if 70 ≤ p then 20 else if 50 ≤ p then 12 else if 30 ≤ p then 6 else 0


namespace ContributionWeightedScorer

/-- Helper: a `min`-capped evidence term is nonnegative. -/
lemma min_cap_nonneg (cap : ℚ) (n : ℕ) (m : ℚ) (hc : 0 ≤ cap) (hm : 0 ≤ m) :
    0 ≤ min cap ((n : ℚ) * m) :=
  le_min hc (by positivity)

/-- C4: `calculate_base_score` equals
`min(100, min(40, f×5) + min(30, i×10) + min(30, p×10))` and lies in
`[0, 100]`. -/
theorem calculate_base_score_closed_form (ev : Evidence) :
    calculate_base_score ev =
      min 100 (min 40 ((ev.files.length : ℚ) * 5) +
        min 30 ((ev.imports.length : ℚ) * 10) +
        min 30 ((ev.patterns.length : ℚ) * 10)) ∧
    0 ≤ calculate_base_score ev ∧ calculate_base_score ev ≤ 100 := by
  have hmain : calculate_base_score ev =
      min 100 (min 40 ((ev.files.length : ℚ) * 5) +
        min 30 ((ev.imports.length : ℚ) * 10) +
        min 30 ((ev.patterns.length : ℚ) * 10)) := by
    unfold calculate_base_score
    rcases Nat.eq_zero_or_pos ev.files.length with h1 | h1 <;>
      rcases Nat.eq_zero_or_pos ev.imports.length with h2 | h2 <;>
        rcases Nat.eq_zero_or_pos ev.patterns.length with h3 | h3 <;>
          simp [h1, h2, h3, Nat.pos_iff_ne_zero]
  refine ⟨hmain, ?_, ?_⟩
  · rw [hmain]
    have f1 := min_cap_nonneg 40 ev.files.length 5 (by norm_num) (by norm_num)
    have f2 := min_cap_nonneg 30 ev.imports.length 10 (by norm_num) (by norm_num)
    have f3 := min_cap_nonneg 30 ev.patterns.length 10 (by norm_num) (by norm_num)
    exact le_min (by norm_num) (by linarith)
  · rw [hmain]; exact min_le_left _ _

/-- C2 counterexample: at contribution percentage 50 (in the 30–<70 gap)
and base score 80, `apply_contribution_cap` does NOT return
`min(base, 60)`: the tier is already `high` and the score is uncapped. -/
theorem contribution_cap_mid_gap_counterexample :
    (30 : ℚ) ≤ 50 ∧ (50 : ℚ) < 70 ∧
    (apply_contribution_cap 80 50).1 ≠ min 80 60 ∧
    (apply_contribution_cap 80 50).1 = 80 ∧
    (apply_contribution_cap 80 50).2.1 = "high" := by
  refine ⟨by norm_num, by norm_num, ?_, ?_, ?_⟩ <;> decide

/-- C2 amended: for every contribution percentage `p ≥ 30` the tier is
`high` and the final score is `min(base, 100)`; the `high` threshold of 70
declared in `THRESHOLDS` is never consulted by `get_contribution_tier`. -/
theorem contribution_cap_high_tier_from_thirty (base p : ℚ) (h : 30 ≤ p) :
    (apply_contribution_cap base p).2.1 = "high" ∧
    (apply_contribution_cap base p).1 = min base 100 := by
  have e5 : THRESHOLDS "insufficient" = 5 := by decide
  have e10 : THRESHOLDS "low" = 10 := by decide
  have e30 : THRESHOLDS "medium" = 30 := by decide
  have h5 : ¬ p < THRESHOLDS "insufficient" := by rw [e5]; linarith
  have h10 : ¬ p < THRESHOLDS "low" := by rw [e10]; linarith
  have h30 : ¬ p < THRESHOLDS "medium" := by rw [e30]; linarith
  have htier : get_contribution_tier p = "high" := by
    unfold get_contribution_tier
    rw [if_neg h5, if_neg h10, if_neg h30]
  have hcaps : CAPS "high" = 100 := by decide
  simp only [apply_contribution_cap, htier, hcaps]
  rw [if_neg (show ¬ ("high" : String) = "insufficient" by decide)]
  constructor <;> split <;> rfl

/-- Witness for `contribution_cap_high_tier_from_thirty` at `p = 50`,
`base = 80`. -/
theorem contribution_cap_high_tier_from_thirty_witness :
    (30 : ℚ) ≤ 50 ∧
    (apply_contribution_cap 80 50).2.1 = "high" ∧
    (apply_contribution_cap 80 50).1 = min 80 100 :=
  ⟨by norm_num, (contribution_cap_high_tier_from_thirty 80 50 (by norm_num)).1,
    (contribution_cap_high_tier_from_thirty 80 50 (by norm_num)).2⟩

/-- C5: below 5 % contribution, `score_skill` always reports tier
`insufficient`, final score 0 and a "contribution too low" reason,
whatever the evidence is. -/
theorem score_skill_insufficient_contribution
    (skill : String) (ev : Evidence) (p : ℚ) (h : p < 5) :
    (score_skill skill ev p).final_score = 0 ∧
    (score_skill skill ev p).tier = "insufficient" ∧
    (score_skill skill ev p).reason = .tooLow p 5 := by
  have e5 : THRESHOLDS "insufficient" = 5 := by decide
  have h5 : p < THRESHOLDS "insufficient" := by rw [e5]; exact h
  have htier : get_contribution_tier p = "insufficient" := by
    unfold get_contribution_tier
    rw [if_pos h5]
  have hcap : apply_contribution_cap (calculate_base_score ev) p
      = (0, "insufficient", .tooLow p 5) := by
    simp [apply_contribution_cap, htier, e5]
  simp [score_skill, hcap]

/-- Witness for `score_skill_insufficient_contribution`: large evidence,
contribution 3 % < 5 %. -/
theorem score_skill_insufficient_contribution_witness :
    (3 : ℚ) < 5 ∧
    (score_skill "Python" ⟨["a", "b", "c"], ["i1", "i2"], ["p1"]⟩ 3).final_score = 0 ∧
    (score_skill "Python" ⟨["a", "b", "c"], ["i1", "i2"], ["p1"]⟩ 3).tier = "insufficient" :=
  ⟨by norm_num,
    (score_skill_insufficient_contribution "Python"
      ⟨["a", "b", "c"], ["i1", "i2"], ["p1"]⟩ 3 (by norm_num)).1,
    (score_skill_insufficient_contribution "Python"
      ⟨["a", "b", "c"], ["i1", "i2"], ["p1"]⟩ 3 (by norm_num)).2.1⟩

/-- C3: aggregation over a non-empty record list with at least one
non-`insufficient` record reports the contribution-weighted average of the
retained records (unweighted mean when the total weight is zero), rounded
to one decimal, and the disjunction of their verified flags. -/
theorem aggregate_scores_weighted_average (repo_scores : List RepoScore)
    (hne : repo_scores ≠ [])
    (hval : repo_scores.filter (fun s => s.tier ≠ "insufficient") ≠ []) :
    (aggregate_scores repo_scores).final_score =
      round1
        (if ((repo_scores.filter (fun s => s.tier ≠ "insufficient")).map
              (fun s => s.contribution_pct)).sum = 0 then
          ((repo_scores.filter (fun s => s.tier ≠ "insufficient")).map
              (fun s => s.final_score)).sum /
            ((repo_scores.filter (fun s => s.tier ≠ "insufficient")).length : ℚ)
        else
          ((repo_scores.filter (fun s => s.tier ≠ "insufficient")).map
              (fun s => s.final_score * s.contribution_pct)).sum /
            ((repo_scores.filter (fun s => s.tier ≠ "insufficient")).map
              (fun s => s.contribution_pct)).sum) ∧
    (aggregate_scores repo_scores).verified =
      (repo_scores.filter (fun s => s.tier ≠ "insufficient")).any
        (fun s => s.verified) ∧
    (aggregate_scores repo_scores).repos_used =
      (repo_scores.filter (fun s => s.tier ≠ "insufficient")).length ∧
    (aggregate_scores repo_scores).repos_insufficient =
      repo_scores.length -
        (repo_scores.filter (fun s => s.tier ≠ "insufficient")).length := by
  unfold aggregate_scores
  rw [if_neg (by simpa using hne), if_neg (by simpa using hval)]
  exact ⟨rfl, rfl, rfl, rfl⟩

/-- Witness for `aggregate_scores_weighted_average`: scores 80/60/40 with
weights 50/30/20 aggregate to exactly 66.0. -/
theorem aggregate_scores_weighted_average_witness :
    ([⟨80, "high", 50, true⟩, ⟨60, "high", 30, false⟩,
        ⟨40, "medium", 20, false⟩] : List RepoScore) ≠ [] ∧
    ([⟨80, "high", 50, true⟩, ⟨60, "high", 30, false⟩,
        (⟨40, "medium", 20, false⟩ : RepoScore)].filter
      (fun s => s.tier ≠ "insufficient")) ≠ [] ∧
    (aggregate_scores
      [⟨80, "high", 50, true⟩, ⟨60, "high", 30, false⟩,
        ⟨40, "medium", 20, false⟩]).final_score = 66 := by
  refine ⟨by decide, by decide, ?_⟩
  rw [(aggregate_scores_weighted_average
    [⟨80, "high", 50, true⟩, ⟨60, "high", 30, false⟩, ⟨40, "medium", 20, false⟩]
    (by decide) (by decide)).1]
  norm_num +decide [round1, pyRoundInt, List.filter]

end ContributionWeightedScorer

/-- Helper: one commit preserves the "contributor lines never exceed the
running repository total" invariant. -/
lemma processCommit_lines_inv (st : RepoAnalysis) (c : Commit)
    (h : ∀ p ∈ st.contributors,
      p.2.lines_added + p.2.lines_deleted ≤ st.total_lines_modified) :
    ∀ p ∈ (processCommit st c).contributors,
      p.2.lines_added + p.2.lines_deleted ≤
        (processCommit st c).total_lines_modified := by
  intro p hp
  simp only [processCommit, updateContrib] at hp ⊢
  split at hp
  · obtain ⟨q, hq, heq⟩ := List.mem_map.mp hp
    by_cases hk : q.1 = c.author_name
    · rw [if_pos hk] at heq
      subst heq
      have := h q hq
      simp only [applyCommitData]
      omega
    · rw [if_neg hk] at heq
      subst heq
      have := h q hq
      omega
  · rcases List.mem_append.mp hp with hl | hr
    · have := h p hl
      omega
    · simp only [List.mem_singleton] at hr
      subst hr
      simp only [applyCommitData, defaultContributor]
      omega

/-- Helper: the invariant holds after folding any commit stream. -/
lemma foldl_processCommit_lines_inv (cs : List Commit) :
    ∀ st : RepoAnalysis,
      (∀ p ∈ st.contributors,
        p.2.lines_added + p.2.lines_deleted ≤ st.total_lines_modified) →
      ∀ p ∈ (cs.foldl processCommit st).contributors,
        p.2.lines_added + p.2.lines_deleted ≤
          (cs.foldl processCommit st).total_lines_modified := by
  induction cs with
  | nil => intro st h; simpa using h
  | cons c cs ih =>
    intro st h
    exact ih (processCommit st c) (processCommit_lines_inv st c h)

/-- C9: for every commit stream and every contributor in
`analyze_repository`'s output, `lines_added + lines_deleted` never exceeds
the stamped `total_lines_modified_in_repo`. -/
theorem contributor_lines_le_repo_total (commits : List Commit)
    (a : String) (cd : ContributorData)
    (h : (a, cd) ∈ (analyze_repository commits).contributors) :
    cd.lines_added + cd.lines_deleted ≤ cd.total_lines_modified_in_repo := by
  have base := foldl_processCommit_lines_inv commits initRepoAnalysis
    (by simp [initRepoAnalysis])
  simp only [analyze_repository] at h
  obtain ⟨q, hq, heq⟩ := List.mem_map.mp h
  cases heq
  simpa using base q hq

/-- Witness for `contributor_lines_le_repo_total`: a one-commit stream. -/
theorem contributor_lines_le_repo_total_witness :
    (("alice",
      ({ commits := 1, lines_added := 3, lines_deleted := 1,
         files_changed := [], commit_messages := ["init"], file_types := [],
         commit_timestamps := [0], complexity_metrics := [4],
         churn_rate := 1/4, is_bot := false,
         total_lines_modified_in_repo := 4 } : ContributorData)) ∈
      (analyze_repository
        [⟨"alice", "alice@example.com", 0, 3, 1, "init", []⟩]).contributors) ∧
    (3 : ℕ) + 1 ≤ 4 := by
  have hmem : ("alice",
      ({ commits := 1, lines_added := 3, lines_deleted := 1,
         files_changed := [], commit_messages := ["init"], file_types := [],
         commit_timestamps := [0], complexity_metrics := [4],
         churn_rate := 1/4, is_bot := false,
         total_lines_modified_in_repo := 4 } : ContributorData)) ∈
      (analyze_repository
        [⟨"alice", "alice@example.com", 0, 3, 1, "init", []⟩]).contributors := by
    norm_num +decide [analyze_repository, processCommit, applyCommitData,
      initRepoAnalysis, updateContrib, defaultContributor, is_bot_user,
      containsSubstr, BOT_PATTERNS]
  exact ⟨hmem, contributor_lines_le_repo_total _ _ _ hmem⟩

/-- Helper: folding commits that all share one author keeps the
contributor map empty or a singleton for that author whose line total
equals the repository-wide total. -/
lemma single_author_fold (a : String) (cs : List Commit) :
    ∀ st : RepoAnalysis, (∀ c ∈ cs, c.author_name = a) →
      ((st.contributors = [] ∧ st.total_lines_modified = 0) ∨
        (∃ cd, st.contributors = [(a, cd)] ∧
          cd.lines_added + cd.lines_deleted = st.total_lines_modified)) →
      (((cs.foldl processCommit st).contributors = [] ∧
          (cs.foldl processCommit st).total_lines_modified = 0) ∨
        (∃ cd, (cs.foldl processCommit st).contributors = [(a, cd)] ∧
          cd.lines_added + cd.lines_deleted =
            (cs.foldl processCommit st).total_lines_modified)) := by
  induction cs with
  | nil => intro st _ h; simpa using h
  | cons c cs ih =>
    intro st hall h
    have hc : c.author_name = a := hall c (List.mem_cons_self _ _)
    refine ih (processCommit st c) (fun c' hc' => hall c' (List.mem_cons_of_mem _ hc')) ?_
    rcases h with ⟨hcont, htot⟩ | ⟨cd, hcont, hsum⟩
    · refine Or.inr ⟨applyCommitData c defaultContributor, ?_, ?_⟩
      · simp [processCommit, updateContrib, hcont, hc]
      · simp [processCommit, applyCommitData, defaultContributor, htot]
    · refine Or.inr ⟨applyCommitData c cd, ?_, ?_⟩
      · simp [processCommit, updateContrib, hcont, hc]
      · simp only [processCommit, applyCommitData]
        omega

/-- Helper: a contributor whose line total equals the positive stamped
repository total has authorship confidence exactly 100. -/
lemma authorship_confidence_of_full_total (cd : ContributorData) (tc : ℕ)
    (h : cd.lines_added + cd.lines_deleted = cd.total_lines_modified_in_repo)
    (hpos : 0 < cd.total_lines_modified_in_repo) :
    calculate_authorship_confidence cd tc = 100 := by
  simp only [calculate_authorship_confidence, calculate_authorship_percentage, h]
  rw [if_neg (Nat.pos_iff_ne_zero.mp hpos)]
  have hne : ((cd.total_lines_modified_in_repo : ℚ)) ≠ 0 := by
    exact_mod_cast (Nat.pos_iff_ne_zero.mp hpos)
  rw [div_self hne]
  norm_num

/-- C7 amended: when every commit of the stream has the same author and
the repository total of modified lines is positive, that contributor's
authorship confidence is exactly 100; when the total is zero it is 0
(see the counterexample). -/
theorem single_contributor_authorship_confidence (commits : List Commit)
    (a : String) (hall : ∀ c ∈ commits, c.author_name = a)
    (hpos : 0 < (analyze_repository commits).total_lines_modified) :
    ∀ (cd : ContributorData) (tc : ℕ),
      (a, cd) ∈ (analyze_repository commits).contributors →
      calculate_authorship_confidence cd tc = 100 := by
  intro cd tc hmem
  have hfold := single_author_fold a commits initRepoAnalysis hall
    (Or.inl ⟨rfl, rfl⟩)
  have htot : (analyze_repository commits).total_lines_modified =
      (commits.foldl processCommit initRepoAnalysis).total_lines_modified := rfl
  rcases hfold with ⟨hcont, htz⟩ | ⟨cd0, hcont, hsum⟩
  · rw [htot, htz] at hpos
    exact absurd hpos (lt_irrefl 0)
  · simp only [analyze_repository, hcont, List.map_cons, List.map_nil,
      List.mem_singleton, Prod.mk.injEq] at hmem
    obtain ⟨-, hcd⟩ := hmem
    subst hcd
    refine authorship_confidence_of_full_total _ tc ?_ ?_
    · simpa using hsum
    · rw [htot] at hpos
      simpa using hpos

/-- Witness for `single_contributor_authorship_confidence`: one commit by
"alice" touching 4 lines. -/
theorem single_contributor_authorship_confidence_witness :
    (∀ c ∈ [(⟨"alice", "alice@example.com", 0, 3, 1, "init", []⟩ : Commit)],
      c.author_name = "alice") ∧
    0 < (analyze_repository
      [⟨"alice", "alice@example.com", 0, 3, 1, "init", []⟩]).total_lines_modified ∧
    calculate_authorship_confidence
      ({ commits := 1, lines_added := 3, lines_deleted := 1,
         files_changed := [], commit_messages := ["init"], file_types := [],
         commit_timestamps := [0], complexity_metrics := [4],
         churn_rate := 1/4, is_bot := false,
         total_lines_modified_in_repo := 4 } : ContributorData) 1 = 100 := by
  have hall : ∀ c ∈ [(⟨"alice", "alice@example.com", 0, 3, 1, "init", []⟩ : Commit)],
      c.author_name = "alice" := by decide
  have hpos : 0 < (analyze_repository
      [⟨"alice", "alice@example.com", 0, 3, 1, "init", []⟩]).total_lines_modified := by
    norm_num [analyze_repository, processCommit, initRepoAnalysis]
  have hmem : ("alice",
      ({ commits := 1, lines_added := 3, lines_deleted := 1,
         files_changed := [], commit_messages := ["init"], file_types := [],
         commit_timestamps := [0], complexity_metrics := [4],
         churn_rate := 1/4, is_bot := false,
         total_lines_modified_in_repo := 4 } : ContributorData)) ∈
      (analyze_repository
        [⟨"alice", "alice@example.com", 0, 3, 1, "init", []⟩]).contributors := by
    norm_num +decide [analyze_repository, processCommit, applyCommitData,
      initRepoAnalysis, updateContrib, defaultContributor, is_bot_user,
      containsSubstr, BOT_PATTERNS]
  exact ⟨hall, hpos,
    single_contributor_authorship_confidence _ "alice" hall hpos _ 1 hmem⟩

/-- C7 counterexample: a single-contributor repository whose only commit
modifies zero lines gets authorship confidence 0.0, not 100.0. -/
theorem single_contributor_zero_lines_counterexample :
    (("alice",
      ({ commits := 1, lines_added := 0, lines_deleted := 0,
         files_changed := [], commit_messages := ["init"], file_types := [],
         commit_timestamps := [0], complexity_metrics := [0],
         churn_rate := 0, is_bot := false,
         total_lines_modified_in_repo := 0 } : ContributorData)) ∈
      (analyze_repository
        [⟨"alice", "alice@example.com", 0, 0, 0, "init", []⟩]).contributors) ∧
    calculate_authorship_confidence
      ({ commits := 1, lines_added := 0, lines_deleted := 0,
         files_changed := [], commit_messages := ["init"], file_types := [],
         commit_timestamps := [0], complexity_metrics := [0],
         churn_rate := 0, is_bot := false,
         total_lines_modified_in_repo := 0 } : ContributorData) 1 = 0 ∧
    (0 : ℚ) ≠ 100 := by
  refine ⟨?_, ?_, by norm_num⟩
  · norm_num +decide [analyze_repository, processCommit, applyCommitData,
      initRepoAnalysis, updateContrib, defaultContributor, is_bot_user,
      containsSubstr, BOT_PATTERNS]
  · norm_num [calculate_authorship_confidence, calculate_authorship_percentage]

/-- Helper: the threshold ladder never exceeds 20. -/
lemma tieredScore_le (count t1 t2 t3 : ℕ) : tieredScore count t1 t2 t3 ≤ 20 := by
  unfold tieredScore
  split_ifs <;> norm_num

/-- Helper: the inline authorship ladder never exceeds 20. -/
lemma auth_chain_le (p : ℚ) :
    (if 70 ≤ p then 20 else if 50 ≤ p then 12 else if 30 ≤ p then 6 else 0 : ℕ)
      ≤ 20 := by
  split_ifs <;> norm_num

/-- Helper: bounded criterion scores pass `validate_skill_breakdown`. -/
lemma validate_of_bound (b : List Criterion) (h : ∀ c ∈ b, c.score ≤ 20) :
    validate_skill_breakdown b 20 = true := by
  unfold validate_skill_breakdown
  rw [List.all_eq_true]
  intro c hc
  simp [h c hc]

/-- Helper: a result whose total is the sum of at most five scores, each at
most 20, totals at most 100. -/
lemma total_le_100 (r : SkillResult)
    (hsum : r.total_score = (r.breakdown.map (fun c => c.score)).sum)
    (hb : ∀ c ∈ r.breakdown, c.score ≤ 20)
    (hlen : r.breakdown.length ≤ 5) : r.total_score ≤ 100 := by
  rw [hsum]
  calc (r.breakdown.map (fun c => c.score)).sum
      ≤ (r.breakdown.map (fun c => c.score)).length • 20 :=
        List.sum_le_card_nsmul _ 20 (by
          intro x hx
          obtain ⟨c, hc, rfl⟩ := List.mem_map.mp hx
          exact hb c hc)
    _ = r.breakdown.length * 20 := by simp [smul_eq_mul]
    _ ≤ 5 * 20 := by omega
    _ = 100 := rfl

/-- Helper: the all-zero single-record result is well-formed. -/
lemma zeroResult_props (name : String) :
    (∀ c ∈ (zeroResult name).breakdown, c.score ≤ 20) ∧
    (zeroResult name).total_score =
      ((zeroResult name).breakdown.map (fun c => c.score)).sum ∧
    ((zeroResult name).breakdown.length = 1 ∧
      (zeroResult name).total_score = 0) := by
  refine ⟨?_, rfl, rfl, rfl⟩
  intro c hc
  simp only [zeroResult, List.mem_singleton] at hc
  subst hc
  norm_num

/-- Helper: full properties of `_evaluate_react`'s result. -/
lemma evalReact_props (s : SkillScorer) :
    (∀ c ∈ (SkillScorer.evalReact s).breakdown, c.score ≤ 20) ∧
    (SkillScorer.evalReact s).total_score =
      ((SkillScorer.evalReact s).breakdown.map (fun c => c.score)).sum ∧
    ((SkillScorer.evalReact s).breakdown.length = 5 ∨
      ((SkillScorer.evalReact s).breakdown.length = 1 ∧
        (SkillScorer.evalReact s).total_score = 0)) ∧
    (∀ c ∈ (SkillScorer.evalReact s).breakdown,
      c.criterion = "authorship_confidence" →
      c.score = authorshipCriterionSpec s.authorship_percentage) := by
  simp only [SkillScorer.evalReact]
  split
  · refine ⟨?_, ?_, .inl rfl, ?_⟩
    · intro c hc
      fin_cases hc
      · norm_num
      · exact tieredScore_le _ _ _ _
      · exact tieredScore_le _ _ _ _
      · exact tieredScore_le _ _ _ _
      · exact auth_chain_le _
    · simp only [List.map_cons, List.map_nil, List.sum_cons, List.sum_nil]
      omega
    · intro c hc hname
      fin_cases hc
      · simp at hname
      · simp at hname
      · simp at hname
      · simp at hname
      · rfl
  · obtain ⟨hb, hs, hlen⟩ := zeroResult_props "react_presence"
    refine ⟨hb, hs, .inr hlen, ?_⟩
    intro c hc hname
    simp only [zeroResult, List.mem_singleton] at hc
    subst hc
    exact absurd hname (by decide)

/-- Helper: full properties of `evalDjango`'s result. -/
lemma evalDjango_props (s : SkillScorer) :
    (∀ c ∈ (SkillScorer.evalDjango s).breakdown, c.score ≤ 20) ∧
    (SkillScorer.evalDjango s).total_score =
      ((SkillScorer.evalDjango s).breakdown.map (fun c => c.score)).sum ∧
    ((SkillScorer.evalDjango s).breakdown.length = 5 ∨
      ((SkillScorer.evalDjango s).breakdown.length = 1 ∧
        (SkillScorer.evalDjango s).total_score = 0)) ∧
    (∀ c ∈ (SkillScorer.evalDjango s).breakdown,
      c.criterion = "authorship_confidence" →
      c.score = authorshipCriterionSpec s.authorship_percentage) := by
  simp only [SkillScorer.evalDjango]
  split
  · refine ⟨?_, ?_, .inl rfl, ?_⟩
    · intro c hc
      fin_cases hc
      · norm_num
      · exact tieredScore_le _ _ _ _
      · exact tieredScore_le _ _ _ _
      · exact tieredScore_le _ _ _ _
      · exact auth_chain_le _
    · simp only [List.map_cons, List.map_nil, List.sum_cons, List.sum_nil]
      omega
    · intro c hc hname
      fin_cases hc
      · simp at hname
      · simp at hname
      · simp at hname
      · simp at hname
      · rfl
  · obtain ⟨hb, hs, hlen⟩ := zeroResult_props "django_presence"
    refine ⟨hb, hs, .inr hlen, ?_⟩
    intro c hc hname
    simp only [zeroResult, List.mem_singleton] at hc
    subst hc
    exact absurd hname (by decide)


/-- Helper: full properties of `evalNodejs`'s result. -/
lemma evalNodejs_props (s : SkillScorer) :
    (∀ c ∈ (SkillScorer.evalNodejs s).breakdown, c.score ≤ 20) ∧
    (SkillScorer.evalNodejs s).total_score =
      ((SkillScorer.evalNodejs s).breakdown.map (fun c => c.score)).sum ∧
    ((SkillScorer.evalNodejs s).breakdown.length = 5 ∨
      ((SkillScorer.evalNodejs s).breakdown.length = 1 ∧
        (SkillScorer.evalNodejs s).total_score = 0)) ∧
    (∀ c ∈ (SkillScorer.evalNodejs s).breakdown,
      c.criterion = "authorship_confidence" →
      c.score = authorshipCriterionSpec s.authorship_percentage) := by
  simp only [SkillScorer.evalNodejs]
  split
  · refine ⟨?_, ?_, .inl rfl, ?_⟩
    · intro c hc
      fin_cases hc
      · norm_num
      · exact tieredScore_le _ _ _ _
      · exact tieredScore_le _ _ _ _
      · exact tieredScore_le _ _ _ _
      · exact auth_chain_le _
    · simp only [List.map_cons, List.map_nil, List.sum_cons, List.sum_nil]
      omega
    · intro c hc hname
      fin_cases hc
      · simp at hname
      · simp at hname
      · simp at hname
      · simp at hname
      · rfl
  · obtain ⟨hb, hs, hlen⟩ := zeroResult_props "node_presence"
    refine ⟨hb, hs, .inr hlen, ?_⟩
    intro c hc hname
    simp only [zeroResult, List.mem_singleton] at hc
    subst hc
    exact absurd hname (by decide)


/-- Helper: full properties of `evalTailwind`'s result. -/
lemma evalTailwind_props (s : SkillScorer) :
    (∀ c ∈ (SkillScorer.evalTailwind s).breakdown, c.score ≤ 20) ∧
    (SkillScorer.evalTailwind s).total_score =
      ((SkillScorer.evalTailwind s).breakdown.map (fun c => c.score)).sum ∧
    ((SkillScorer.evalTailwind s).breakdown.length = 5 ∨
      ((SkillScorer.evalTailwind s).breakdown.length = 1 ∧
        (SkillScorer.evalTailwind s).total_score = 0)) ∧
    (∀ c ∈ (SkillScorer.evalTailwind s).breakdown,
      c.criterion = "authorship_confidence" →
      c.score = authorshipCriterionSpec s.authorship_percentage) := by
  simp only [SkillScorer.evalTailwind]
  split
  · refine ⟨?_, ?_, .inl rfl, ?_⟩
    · intro c hc
      fin_cases hc
      · norm_num
      · exact tieredScore_le _ _ _ _
      · split_ifs <;> norm_num
      · exact tieredScore_le _ _ _ _
      · exact auth_chain_le _
    · simp only [List.map_cons, List.map_nil, List.sum_cons, List.sum_nil]
      omega
    · intro c hc hname
      fin_cases hc
      · simp at hname
      · simp at hname
      · simp at hname
      · simp at hname
      · rfl
  · obtain ⟨hb, hs, hlen⟩ := zeroResult_props "tailwind_presence"
    refine ⟨hb, hs, .inr hlen, ?_⟩
    intro c hc hname
    simp only [zeroResult, List.mem_singleton] at hc
    subst hc
    exact absurd hname (by decide)


/-- Helper: full properties of `evalPython`'s result. -/
lemma evalPython_props (s : SkillScorer) (file_count : ℕ) :
    (∀ c ∈ (SkillScorer.evalPython s file_count).breakdown, c.score ≤ 20) ∧
    (SkillScorer.evalPython s file_count).total_score =
      ((SkillScorer.evalPython s file_count).breakdown.map (fun c => c.score)).sum ∧
    ((SkillScorer.evalPython s file_count).breakdown.length = 5 ∨
      ((SkillScorer.evalPython s file_count).breakdown.length = 1 ∧
        (SkillScorer.evalPython s file_count).total_score = 0)) ∧
    (∀ c ∈ (SkillScorer.evalPython s file_count).breakdown,
      c.criterion = "authorship_confidence" →
      c.score = authorshipCriterionSpec s.authorship_percentage) := by
  simp only [SkillScorer.evalPython]
  split
  · obtain ⟨hb, hs, hlen⟩ := zeroResult_props "python_presence"
    refine ⟨hb, hs, .inr hlen, ?_⟩
    intro c hc hname
    simp only [zeroResult, List.mem_singleton] at hc
    subst hc
    exact absurd hname (by decide)
  · refine ⟨?_, ?_, .inl rfl, ?_⟩
    · intro c hc
      fin_cases hc
      · exact tieredScore_le _ _ _ _
      · exact tieredScore_le _ _ _ _
      · split_ifs <;> norm_num
      · exact tieredScore_le _ _ _ _
      · exact auth_chain_le _
    · simp only [List.map_cons, List.map_nil, List.sum_cons, List.sum_nil]
      omega
    · intro c hc hname
      fin_cases hc
      · simp at hname
      · simp at hname
      · simp at hname
      · simp at hname
      · rfl


/-- Helper: full properties of `evalJavascript`'s result. -/
lemma evalJavascript_props (s : SkillScorer) (file_count : ℕ) :
    (∀ c ∈ (SkillScorer.evalJavascript s file_count).breakdown, c.score ≤ 20) ∧
    (SkillScorer.evalJavascript s file_count).total_score =
      ((SkillScorer.evalJavascript s file_count).breakdown.map (fun c => c.score)).sum ∧
    ((SkillScorer.evalJavascript s file_count).breakdown.length = 5 ∨
      ((SkillScorer.evalJavascript s file_count).breakdown.length = 1 ∧
        (SkillScorer.evalJavascript s file_count).total_score = 0)) ∧
    (∀ c ∈ (SkillScorer.evalJavascript s file_count).breakdown,
      c.criterion = "authorship_confidence" →
      c.score = authorshipCriterionSpec s.authorship_percentage) := by
  simp only [SkillScorer.evalJavascript]
  split
  · obtain ⟨hb, hs, hlen⟩ := zeroResult_props "js_presence"
    refine ⟨hb, hs, .inr hlen, ?_⟩
    intro c hc hname
    simp only [zeroResult, List.mem_singleton] at hc
    subst hc
    exact absurd hname (by decide)
  · refine ⟨?_, ?_, .inl rfl, ?_⟩
    · intro c hc
      fin_cases hc
      · exact tieredScore_le _ _ _ _
      · exact tieredScore_le _ _ _ _
      · split_ifs <;> norm_num
      · exact tieredScore_le _ _ _ _
      · exact auth_chain_le _
    · simp only [List.map_cons, List.map_nil, List.sum_cons, List.sum_nil]
      omega
    · intro c hc hname
      fin_cases hc
      · simp at hname
      · simp at hname
      · simp at hname
      · simp at hname
      · rfl


/-- Helper: full properties of `evalTypescript`'s result. -/
lemma evalTypescript_props (s : SkillScorer) (file_count : ℕ) :
    (∀ c ∈ (SkillScorer.evalTypescript s file_count).breakdown, c.score ≤ 20) ∧
    (SkillScorer.evalTypescript s file_count).total_score =
      ((SkillScorer.evalTypescript s file_count).breakdown.map (fun c => c.score)).sum ∧
    ((SkillScorer.evalTypescript s file_count).breakdown.length = 5 ∨
      ((SkillScorer.evalTypescript s file_count).breakdown.length = 1 ∧
        (SkillScorer.evalTypescript s file_count).total_score = 0)) ∧
    (∀ c ∈ (SkillScorer.evalTypescript s file_count).breakdown,
      c.criterion = "authorship_confidence" →
      c.score = authorshipCriterionSpec s.authorship_percentage) := by
  simp only [SkillScorer.evalTypescript]
  split
  · obtain ⟨hb, hs, hlen⟩ := zeroResult_props "ts_presence"
    refine ⟨hb, hs, .inr hlen, ?_⟩
    intro c hc hname
    simp only [zeroResult, List.mem_singleton] at hc
    subst hc
    exact absurd hname (by decide)
  · refine ⟨?_, ?_, .inl rfl, ?_⟩
    · intro c hc
      fin_cases hc
      · exact tieredScore_le _ _ _ _
      · exact tieredScore_le _ _ _ _
      · split_ifs <;> norm_num
      · exact tieredScore_le _ _ _ _
      · exact auth_chain_le _
    · simp only [List.map_cons, List.map_nil, List.sum_cons, List.sum_nil]
      omega
    · intro c hc hname
      fin_cases hc
      · simp at hname
      · simp at hname
      · simp at hname
      · simp at hname
      · rfl


/-- Helper: full properties of `evalC`'s result. -/
lemma evalC_props (s : SkillScorer) :
    (∀ c ∈ (SkillScorer.evalC s).breakdown, c.score ≤ 20) ∧
    (SkillScorer.evalC s).total_score =
      ((SkillScorer.evalC s).breakdown.map (fun c => c.score)).sum ∧
    ((SkillScorer.evalC s).breakdown.length = 5 ∨
      ((SkillScorer.evalC s).breakdown.length = 1 ∧
        (SkillScorer.evalC s).total_score = 0)) ∧
    (∀ c ∈ (SkillScorer.evalC s).breakdown,
      c.criterion = "authorship_confidence" →
      c.score = authorshipCriterionSpec s.authorship_percentage) := by
  simp only [SkillScorer.evalC]
  split
  · obtain ⟨hb, hs, hlen⟩ := zeroResult_props "c_presence"
    refine ⟨hb, hs, .inr hlen, ?_⟩
    intro c hc hname
    simp only [zeroResult, List.mem_singleton] at hc
    subst hc
    exact absurd hname (by decide)
  · refine ⟨?_, ?_, .inl rfl, ?_⟩
    · intro c hc
      fin_cases hc
      · exact tieredScore_le _ _ _ _
      · exact tieredScore_le _ _ _ _
      · split_ifs <;> norm_num
      · exact tieredScore_le _ _ _ _
      · exact auth_chain_le _
    · simp only [List.map_cons, List.map_nil, List.sum_cons, List.sum_nil]
      omega
    · intro c hc hname
      fin_cases hc
      · simp at hname
      · simp at hname
      · simp at hname
      · simp at hname
      · rfl


/-- Helper: full properties of `evalCpp`'s result. -/
lemma evalCpp_props (s : SkillScorer) (file_count : ℕ) :
    (∀ c ∈ (SkillScorer.evalCpp s file_count).breakdown, c.score ≤ 20) ∧
    (SkillScorer.evalCpp s file_count).total_score =
      ((SkillScorer.evalCpp s file_count).breakdown.map (fun c => c.score)).sum ∧
    ((SkillScorer.evalCpp s file_count).breakdown.length = 5 ∨
      ((SkillScorer.evalCpp s file_count).breakdown.length = 1 ∧
        (SkillScorer.evalCpp s file_count).total_score = 0)) ∧
    (∀ c ∈ (SkillScorer.evalCpp s file_count).breakdown,
      c.criterion = "authorship_confidence" →
      c.score = authorshipCriterionSpec s.authorship_percentage) := by
  simp only [SkillScorer.evalCpp]
  split
  · obtain ⟨hb, hs, hlen⟩ := zeroResult_props "cpp_presence"
    refine ⟨hb, hs, .inr hlen, ?_⟩
    intro c hc hname
    simp only [zeroResult, List.mem_singleton] at hc
    subst hc
    exact absurd hname (by decide)
  · refine ⟨?_, ?_, .inl rfl, ?_⟩
    · intro c hc
      fin_cases hc
      · exact tieredScore_le _ _ _ _
      · exact tieredScore_le _ _ _ _
      · exact tieredScore_le _ _ _ _
      · exact tieredScore_le _ _ _ _
      · exact auth_chain_le _
    · simp only [List.map_cons, List.map_nil, List.sum_cons, List.sum_nil]
      omega
    · intro c hc hname
      fin_cases hc
      · simp at hname
      · simp at hname
      · simp at hname
      · simp at hname
      · rfl

/-- Helper: a zero single-record entry with a non-authorship criterion name
satisfies all per-entry properties. -/
lemma zeroResult_entry_props (s : SkillScorer) (name : String)
    (hne : name ≠ "authorship_confidence") :
    (∀ c ∈ (zeroResult name).breakdown, c.score ≤ 20) ∧
    (zeroResult name).total_score =
      ((zeroResult name).breakdown.map (fun c => c.score)).sum ∧
    ((zeroResult name).breakdown.length = 5 ∨
      ((zeroResult name).breakdown.length = 1 ∧
        (zeroResult name).total_score = 0)) ∧
    (∀ c ∈ (zeroResult name).breakdown,
      c.criterion = "authorship_confidence" →
      c.score = authorshipCriterionSpec s.authorship_percentage) := by
  obtain ⟨hb, hs, hlen⟩ := zeroResult_props name
  refine ⟨hb, hs, .inr hlen, ?_⟩
  intro c hc hname
  simp only [zeroResult, List.mem_singleton] at hc
  subst hc
  exact absurd hname hne

/-- Helper: every entry of `evaluate_all_skills` has bounded criterion
scores, a total equal to the breakdown sum, five records (or one zero
record from a failed presence check), and an authorship criterion given by
the uniform ladder. -/
lemma entry_props (s : SkillScorer) (entry : String × SkillResult)
    (h : entry ∈ s.evaluate_all_skills) :
    (∀ c ∈ entry.2.breakdown, c.score ≤ 20) ∧
    entry.2.total_score = (entry.2.breakdown.map (fun c => c.score)).sum ∧
    (entry.2.breakdown.length = 5 ∨
      (entry.2.breakdown.length = 1 ∧ entry.2.total_score = 0)) ∧
    (∀ c ∈ entry.2.breakdown, c.criterion = "authorship_confidence" →
      c.score = authorshipCriterionSpec s.authorship_percentage) := by
  simp only [SkillScorer.evaluate_all_skills, List.mem_append] at h
  rcases h with ((((((((h|h)|h)|h)|h)|h)|h)|h)|h)
  · simp only [SkillScorer.reactEntry] at h
    split at h
    · split at h
      · simp only [List.mem_singleton] at h
        subst h
        exact evalReact_props s
      · simp only [List.mem_singleton] at h
        subst h
        exact zeroResult_entry_props s "react_presence" (by decide)
    · simp at h
  · simp only [SkillScorer.djangoEntry] at h
    split at h
    · split at h
      · simp only [List.mem_singleton] at h
        subst h
        exact evalDjango_props s
      · simp only [List.mem_singleton] at h
        subst h
        exact zeroResult_entry_props s "django_presence" (by decide)
    · simp at h
  · simp only [SkillScorer.nodejsEntry] at h
    split at h
    · split at h
      · simp only [List.mem_singleton] at h
        subst h
        exact evalNodejs_props s
      · simp only [List.mem_singleton] at h
        subst h
        exact zeroResult_entry_props s "node_presence" (by decide)
    · simp at h
  · simp only [SkillScorer.tailwindEntry] at h
    split at h
    · split at h
      · simp only [List.mem_singleton] at h
        subst h
        exact evalTailwind_props s
      · simp only [List.mem_singleton] at h
        subst h
        exact zeroResult_entry_props s "tailwind_presence" (by decide)
    · simp at h
  · simp only [SkillScorer.pythonEntry] at h
    split at h
    · simp only [List.mem_singleton] at h
      subst h
      exact evalPython_props s _
    · simp at h
  · simp only [SkillScorer.javascriptEntry] at h
    split at h
    · simp only [List.mem_singleton] at h
      subst h
      exact evalJavascript_props s _
    · simp at h
  · simp only [SkillScorer.typescriptEntry] at h
    split at h
    · simp only [List.mem_singleton] at h
      subst h
      exact evalTypescript_props s _
    · simp at h
  · simp only [SkillScorer.cEntry] at h
    split at h
    · simp only [List.mem_singleton] at h
      subst h
      exact evalC_props s
    · simp at h
  · simp only [SkillScorer.cppEntry] at h
    split at h
    · simp only [List.mem_singleton] at h
      subst h
      exact evalCpp_props s _
    · simp at h

/-- C6 amended: every entry of `evaluate_all_skills` has criterion scores
in `[0, 20]`, passes `validate_skill_breakdown`, reports `total_score`
equal to the sum of its criterion scores, total in `[0, 100]`, and has
exactly five criterion records when the presence criterion passes — or
exactly one zero-scored record (low framework confidence or failed
presence). -/
theorem evaluate_all_skills_breakdown_invariant (s : SkillScorer)
    (entry : String × SkillResult) (h : entry ∈ s.evaluate_all_skills) :
    (∀ c ∈ entry.2.breakdown, c.score ≤ 20) ∧
    validate_skill_breakdown entry.2.breakdown 20 = true ∧
    entry.2.total_score = (entry.2.breakdown.map (fun c => c.score)).sum ∧
    entry.2.total_score ≤ 100 ∧
    (entry.2.breakdown.length = 5 ∨
      (entry.2.breakdown.length = 1 ∧ entry.2.total_score = 0)) := by
  obtain ⟨hb, hs, hlen, -⟩ := entry_props s entry h
  refine ⟨hb, validate_of_bound _ hb, hs, total_le_100 _ hs hb ?_, hlen⟩
  rcases hlen with h5 | ⟨h1, -⟩ <;> omega

/-- C6 counterexample: a React detection with confidence 55 (< 60) yields
an entry whose breakdown has exactly one record, not five. -/
theorem low_confidence_breakdown_counterexample :
    (("React", zeroResult "react_presence") ∈
      (SkillScorer.init
        { frameworks := [("React",
            { confidence := 55,
              signals := { dependencies_found := ["react"], files_found := [],
                           patterns_found := [] } })],
          code_lines := 0, avg_function_length := 0, django_app_count := 0,
          countPatterns := fun _ => 0, filePatternsFound := fun _ => [],
          treeFiles := [] } defaultContributor).evaluate_all_skills) ∧
    (zeroResult "react_presence").breakdown.length = 1 ∧
    (zeroResult "react_presence").breakdown.length ≠ 5 := by
  refine ⟨?_, rfl, by decide⟩
  decide

/-- Witness for `evaluate_all_skills_breakdown_invariant`: a full React
evaluation (confidence 80, dependencies found) yields a five-record
breakdown summing to the total. -/
theorem evaluate_all_skills_breakdown_invariant_witness :
    (("React", (⟨20, 100, 20,
        [⟨"react_presence", 20⟩, ⟨"hooks_usage", 0⟩, ⟨"project_size", 0⟩,
         ⟨"git_maturity", 0⟩, ⟨"authorship_confidence", 0⟩]⟩ : SkillResult)) ∈
      (SkillScorer.init
        { frameworks := [("React",
            { confidence := 80,
              signals := { dependencies_found := ["react"], files_found := [],
                           patterns_found := [] } })],
          code_lines := 0, avg_function_length := 0, django_app_count := 0,
          countPatterns := fun _ => 0, filePatternsFound := fun _ => [],
          treeFiles := [] } defaultContributor).evaluate_all_skills) ∧
    validate_skill_breakdown [⟨"react_presence", 20⟩, ⟨"hooks_usage", 0⟩,
      ⟨"project_size", 0⟩, ⟨"git_maturity", 0⟩,
      ⟨"authorship_confidence", 0⟩] 20 = true ∧
    (20 : ℕ) ≤ 100 := by
  have hmem : (("React", (⟨20, 100, 20,
        [⟨"react_presence", 20⟩, ⟨"hooks_usage", 0⟩, ⟨"project_size", 0⟩,
         ⟨"git_maturity", 0⟩, ⟨"authorship_confidence", 0⟩]⟩ : SkillResult)) ∈
      (SkillScorer.init
        { frameworks := [("React",
            { confidence := 80,
              signals := { dependencies_found := ["react"], files_found := [],
                           patterns_found := [] } })],
          code_lines := 0, avg_function_length := 0, django_app_count := 0,
          countPatterns := fun _ => 0, filePatternsFound := fun _ => [],
          treeFiles := [] } defaultContributor).evaluate_all_skills) := by
    decide
  exact ⟨hmem, (evaluate_all_skills_breakdown_invariant _ _ hmem).2.1,
    (evaluate_all_skills_breakdown_invariant _ _ hmem).2.2.2.1⟩

/-- C8: the authorship percentage of a `SkillScorer` is computed by the
global formula, and in every breakdown the criterion named
`authorship_confidence` scores by the single spec ladder (20 at ≥70, 12 at
≥50, 6 at ≥30, else 0) applied to that percentage — identically for all
nine technologies. -/
theorem authorship_criterion_uniform (env : ScorerEnv) (cd : ContributorData)
    (entry : String × SkillResult)
    (h : entry ∈ (SkillScorer.init env cd).evaluate_all_skills) :
    (SkillScorer.init env cd).authorship_percentage =
      calculate_authorship_percentage (cd.lines_added + cd.lines_deleted)
        cd.total_lines_modified_in_repo ∧
    ∀ c ∈ entry.2.breakdown, c.criterion = "authorship_confidence" →
      c.score = authorshipCriterionSpec
        (calculate_authorship_percentage (cd.lines_added + cd.lines_deleted)
          cd.total_lines_modified_in_repo) := by
  refine ⟨rfl, ?_⟩
  obtain ⟨-, -, -, hauth⟩ := entry_props (SkillScorer.init env cd) entry h
  exact hauth

/-- Witness for `authorship_criterion_uniform`: the React evaluation of a
zero-activity contributor has authorship criterion score
`authorshipCriterionSpec 0 = 0`. -/
theorem authorship_criterion_uniform_witness :
    (("React", (⟨20, 100, 20,
        [⟨"react_presence", 20⟩, ⟨"hooks_usage", 0⟩, ⟨"project_size", 0⟩,
         ⟨"git_maturity", 0⟩, ⟨"authorship_confidence", 0⟩]⟩ : SkillResult)) ∈
      (SkillScorer.init
        { frameworks := [("React",
            { confidence := 90,
              signals := { dependencies_found := ["react"], files_found := [],
                           patterns_found := [] } })],
          code_lines := 0, avg_function_length := 0, django_app_count := 0,
          countPatterns := fun _ => 0, filePatternsFound := fun _ => [],
          treeFiles := [] } defaultContributor).evaluate_all_skills) ∧
    ((⟨"authorship_confidence", 0⟩ : Criterion) ∈
      [(⟨"react_presence", 20⟩ : Criterion), ⟨"hooks_usage", 0⟩,
        ⟨"project_size", 0⟩, ⟨"git_maturity", 0⟩,
        ⟨"authorship_confidence", 0⟩]) ∧
    (0 : ℕ) = authorshipCriterionSpec
      (calculate_authorship_percentage
        (defaultContributor.lines_added + defaultContributor.lines_deleted)
        defaultContributor.total_lines_modified_in_repo) := by
  have hmem : (("React", (⟨20, 100, 20,
        [⟨"react_presence", 20⟩, ⟨"hooks_usage", 0⟩, ⟨"project_size", 0⟩,
         ⟨"git_maturity", 0⟩, ⟨"authorship_confidence", 0⟩]⟩ : SkillResult)) ∈
      (SkillScorer.init
        { frameworks := [("React",
            { confidence := 90,
              signals := { dependencies_found := ["react"], files_found := [],
                           patterns_found := [] } })],
          code_lines := 0, avg_function_length := 0, django_app_count := 0,
          countPatterns := fun _ => 0, filePatternsFound := fun _ => [],
          treeFiles := [] } defaultContributor).evaluate_all_skills) := by
    decide
  have hc : (⟨"authorship_confidence", 0⟩ : Criterion) ∈
      [(⟨"react_presence", 20⟩ : Criterion), ⟨"hooks_usage", 0⟩,
        ⟨"project_size", 0⟩, ⟨"git_maturity", 0⟩,
        ⟨"authorship_confidence", 0⟩] := by decide
  exact ⟨hmem, hc,
    (authorship_criterion_uniform _ defaultContributor _ hmem).2 _ hc rfl⟩

/-- Helper: `pyRoundInt` is at least the floor. -/
lemma pyRoundInt_ge_floor (q : ℚ) : ⌊q⌋ ≤ pyRoundInt q := by
  simp only [pyRoundInt]
  split_ifs <;> omega

/-- Helper: `pyRoundInt` is at most the ceiling. -/
lemma pyRoundInt_le_ceil (q : ℚ) : pyRoundInt q ≤ ⌈q⌉ := by
  simp only [pyRoundInt]
  split_ifs with h1 h2 h3
  · exact Int.floor_le_ceil q
  · have hlt : (⌊q⌋ : ℚ) < q := by linarith
    have := Int.lt_ceil.mpr hlt
    omega
  · exact Int.floor_le_ceil q
  · have hlt : (⌊q⌋ : ℚ) < q := by
      push_neg at h1
      linarith
    have := Int.lt_ceil.mpr hlt
    omega

/-- Helper: `pyRoundInt` is within one half of its argument. -/
lemma pyRoundInt_close (q : ℚ) : |(pyRoundInt q : ℚ) - q| ≤ 1/2 := by
  have hfl := Int.floor_le q
  have hfu := Int.lt_floor_add_one q
  simp only [pyRoundInt]
  split_ifs with h1 h2 h3 <;> rw [abs_le] <;> push_cast <;>
    constructor <;> linarith

/-- Helper: `round2` keeps nonnegative values nonnegative. -/
lemma round2_nonneg (q : ℚ) (h : 0 ≤ q) : 0 ≤ round2 q := by
  have h1 : (0 : ℤ) ≤ ⌊q * 100⌋ := Int.floor_nonneg.mpr (by positivity)
  have h2 := pyRoundInt_ge_floor (q * 100)
  unfold round2
  have : (0 : ℚ) ≤ (pyRoundInt (q * 100) : ℚ) := by exact_mod_cast le_trans h1 h2
  positivity

/-- Helper: `round2` respects an integer upper bound. -/
lemma round2_le_int (q : ℚ) (n : ℤ) (h : q ≤ n) : round2 q ≤ n := by
  have h1 : pyRoundInt (q * 100) ≤ ⌈q * 100⌉ := pyRoundInt_le_ceil _
  have h2 : ⌈q * 100⌉ ≤ n * 100 := Int.ceil_le.mpr (by push_cast; linarith)
  have h3 : (pyRoundInt (q * 100) : ℚ) ≤ ((n * 100 : ℤ) : ℚ) := by
    exact_mod_cast le_trans h1 h2
  unfold round2
  rw [div_le_iff₀ (by norm_num : (0:ℚ) < 100)]
  push_cast at h3 ⊢
  linarith

/-- Helper: `round2` is within 1/200 of its argument. -/
lemma round2_close (q : ℚ) : |round2 q - q| ≤ 1/200 := by
  have h := pyRoundInt_close (q * 100)
  unfold round2
  rw [abs_le] at h ⊢
  constructor <;> [nlinarith [h.1]; nlinarith [h.2]]

/-- Helper: `calculate_code_quality` is bounded in `[0, 100]` for churn
rates in `[0, 1]`. -/
lemma code_quality_bounds (cd : ContributorData)
    (_h0 : 0 ≤ cd.churn_rate) (h1 : cd.churn_rate ≤ 1) :
    0 ≤ calculate_code_quality cd ∧ calculate_code_quality cd ≤ 100 := by
  have e1 : Config.CODE_QUALITY "message_quality_weight" = 40 := by decide
  have e2 : Config.CODE_QUALITY "churn_rate_weight" = 30 := by decide
  have e3 : Config.CODE_QUALITY "file_diversity_weight" = 30 := by decide
  have e4 : Config.CODE_QUALITY "diversity_multiplier" = 10 := by decide
  simp only [calculate_code_quality, e1, e2, e3, e4]
  constructor
  · refine le_min ?_ (by norm_num)
    have hmq : (0:ℚ) ≤
        ((cd.commit_messages.filter (fun msg =>
          (Config.CODE_QUALITY "min_meaningful_words" : ℚ) <
            ((pySplit msg).length : ℚ))).length : ℚ) /
          ((max cd.commit_messages.length 1 : ℕ) : ℚ) * 40 := by positivity
    have hcs : (0:ℚ) ≤ (1 - cd.churn_rate) * 30 :=
      mul_nonneg (by linarith) (by norm_num)
    have hfd : (0:ℚ) ≤ min ((cd.file_types.length : ℚ) * 10) 30 :=
      le_min (by positivity) (by norm_num)
    linarith
  · exact min_le_right _ _

/-- Helper: `calculate_authorship_percentage` is bounded in `[0, 100]`. -/
lemma authorship_percentage_bounds (a t : ℕ) :
    0 ≤ calculate_authorship_percentage a t ∧
      calculate_authorship_percentage a t ≤ 100 := by
  unfold calculate_authorship_percentage
  split_ifs
  · norm_num
  · constructor
    · exact le_min (by positivity) (by norm_num)
    · exact min_le_right _ _

/-- Helper: `calculate_authorship_confidence` is bounded in `[0, 100]`. -/
lemma authorship_confidence_bounds (cd : ContributorData) (tc : ℕ) :
    0 ≤ calculate_authorship_confidence cd tc ∧
      calculate_authorship_confidence cd tc ≤ 100 := by
  obtain ⟨hl, hu⟩ := authorship_percentage_bounds
    (cd.lines_added + cd.lines_deleted) cd.total_lines_modified_in_repo
  unfold calculate_authorship_confidence
  exact ⟨le_min hl (by norm_num), min_le_right _ _⟩

/-- Helper: `calculate_commit_maturity` is bounded in `[30, 100]` — the
complexity band has floor 20 and the consistency band floor 10. -/
lemma commit_maturity_bounds (cd : ContributorData) :
    30 ≤ calculate_commit_maturity cd ∧ calculate_commit_maturity cd ≤ 100 := by
  have e1 : Config.COMMIT_MATURITY "optimal_min_complexity" = 50 := by decide
  have e2 : Config.COMMIT_MATURITY "optimal_max_complexity" = 200 := by decide
  have e3 : Config.COMMIT_MATURITY "optimal_min_interval_days" = 1 := by decide
  have e4 : Config.COMMIT_MATURITY "optimal_max_interval_days" = 7 := by decide
  have e5 : Config.COMMIT_MATURITY "optimal_interval_center" = 4 := by decide
  simp only [calculate_commit_maturity, e1, e2, e3, e4, e5]
  constructor
  · refine le_min ?_ (by norm_num)
    have hcs : (20:ℚ) ≤ (if 50 ≤ (cd.complexity_metrics.map (fun n => (n : ℚ))).sum /
          ((max cd.complexity_metrics.length 1 : ℕ) : ℚ) ∧
          (cd.complexity_metrics.map (fun n => (n : ℚ))).sum /
            ((max cd.complexity_metrics.length 1 : ℕ) : ℚ) ≤ 200 then (60:ℚ)
        else if (cd.complexity_metrics.map (fun n => (n : ℚ))).sum /
            ((max cd.complexity_metrics.length 1 : ℕ) : ℚ) < 50 then 40
        else max 20 (60 - ((cd.complexity_metrics.map (fun n => (n : ℚ))).sum /
            ((max cd.complexity_metrics.length 1 : ℕ) : ℚ) - 200) / 10)) := by
      split_ifs
      · norm_num
      · norm_num
      · exact le_max_left _ _
    set ts := cd.commit_timestamps.mergeSort (fun a b => a ≤ b)
    have hks : (10:ℚ) ≤ (if 1 < cd.commit_timestamps.length then
        (if 1 ≤ ((List.zipWith (fun a b => Int.fdiv (b - a) 86400) ts ts.tail).map
              (fun n => (n : ℚ))).sum /
              ((List.zipWith (fun a b => Int.fdiv (b - a) 86400) ts ts.tail).length : ℚ) ∧
            ((List.zipWith (fun a b => Int.fdiv (b - a) 86400) ts ts.tail).map
              (fun n => (n : ℚ))).sum /
              ((List.zipWith (fun a b => Int.fdiv (b - a) 86400) ts ts.tail).length : ℚ) ≤ 7
          then (40:ℚ)
          else max 10 (40 - |((List.zipWith (fun a b => Int.fdiv (b - a) 86400) ts ts.tail).map
              (fun n => (n : ℚ))).sum /
              ((List.zipWith (fun a b => Int.fdiv (b - a) 86400) ts ts.tail).length : ℚ) - 4| * 2))
        else (20:ℚ)) := by
      split_ifs
      · norm_num
      · exact le_trans (by norm_num) (le_max_left _ _)
      · norm_num
    linarith
  · refine min_le_right _ _

/-- Helper: `calculate_project_complexity` is bounded in `[0, 100]`. -/
lemma project_complexity_bounds (cd : ContributorData)
    (af : List String) (fe : List (String × ℕ)) :
    0 ≤ calculate_project_complexity cd af fe ∧
      calculate_project_complexity cd af fe ≤ 100 := by
  have e1 : Config.PROJECT_COMPLEXITY "file_coverage_weight" = 40 := by decide
  have e2 : Config.PROJECT_COMPLEXITY "tech_diversity_weight" = 30 := by decide
  have e3 : Config.PROJECT_COMPLEXITY "volume_weight" = 30 := by decide
  have e4 : Config.PROJECT_COMPLEXITY "diversity_multiplier" = 15 := by decide
  have e5 : Config.PROJECT_COMPLEXITY "volume_divisor" = 50 := by decide
  simp only [calculate_project_complexity, e1, e2, e3, e4, e5]
  constructor
  · refine le_min ?_ (by norm_num)
    have hfc : (0:ℚ) ≤ min ((cd.files_changed.length : ℚ) /
        ((max af.length 1 : ℕ) : ℚ) * 100) 40 :=
      le_min (by positivity) (by norm_num)
    have htd : (0:ℚ) ≤ min ((cd.file_types.length : ℚ) * 15) 30 :=
      le_min (by positivity) (by norm_num)
    have hvs : (0:ℚ) ≤ min ((cd.lines_added : ℚ) / 50) 30 :=
      le_min (by positivity) (by norm_num)
    linarith
  · exact min_le_right _ _

/-- Helper: with a churn rate in `[0, 1]` every `validate_score` call of
`calculate_skill_score` succeeds and the function returns the rounded
result dictionary. -/
lemma calculate_skill_score_ok (cd : ContributorData) (tc : ℕ)
    (af : List String) (fe : List (String × ℕ))
    (h0 : 0 ≤ cd.churn_rate) (h1 : cd.churn_rate ≤ 1) :
    calculate_skill_score cd tc af fe = Except.ok
      { skill_score := round2 (Config.WEIGHTS "code_quality" *
            calculate_code_quality cd +
          Config.WEIGHTS "authorship_confidence" *
            calculate_authorship_confidence cd tc +
          Config.WEIGHTS "commit_maturity" * calculate_commit_maturity cd +
          Config.WEIGHTS "project_complexity" *
            calculate_project_complexity cd af fe)
        code_quality := round2 (calculate_code_quality cd)
        authorship_confidence := round2 (calculate_authorship_confidence cd tc)
        commit_maturity := round2 (calculate_commit_maturity cd)
        project_complexity := round2 (calculate_project_complexity cd af fe) } := by
  obtain ⟨hcq0, hcq1⟩ := code_quality_bounds cd h0 h1
  obtain ⟨hac0, hac1⟩ := authorship_confidence_bounds cd tc
  obtain ⟨hcm0, hcm1⟩ := commit_maturity_bounds cd
  obtain ⟨hpc0, hpc1⟩ := project_complexity_bounds cd af fe
  have w1 : Config.WEIGHTS "code_quality" = 35/100 := by simp [Config.WEIGHTS]
  have w2 : Config.WEIGHTS "authorship_confidence" = 25/100 := by simp [Config.WEIGHTS]
  have w3 : Config.WEIGHTS "commit_maturity" = 20/100 := by simp [Config.WEIGHTS]
  have w4 : Config.WEIGHTS "project_complexity" = 10/100 := by simp [Config.WEIGHTS]
  have v1 : validate_score (calculate_code_quality cd) "Code Quality" =
      .ok (calculate_code_quality cd) := by
    unfold validate_score
    rw [if_pos ⟨hcq0, hcq1⟩]
  have v2 : validate_score (calculate_authorship_confidence cd tc)
      "Authorship Confidence" = .ok (calculate_authorship_confidence cd tc) := by
    unfold validate_score
    rw [if_pos ⟨hac0, hac1⟩]
  have v3 : validate_score (calculate_commit_maturity cd) "Commit Maturity" =
      .ok (calculate_commit_maturity cd) := by
    unfold validate_score
    rw [if_pos ⟨by linarith, hcm1⟩]
  have v4 : validate_score (calculate_project_complexity cd af fe)
      "Project Complexity" = .ok (calculate_project_complexity cd af fe) := by
    unfold validate_score
    rw [if_pos ⟨hpc0, hpc1⟩]
  have v5 : validate_score (Config.WEIGHTS "code_quality" *
        calculate_code_quality cd +
      Config.WEIGHTS "authorship_confidence" *
        calculate_authorship_confidence cd tc +
      Config.WEIGHTS "commit_maturity" * calculate_commit_maturity cd +
      Config.WEIGHTS "project_complexity" *
        calculate_project_complexity cd af fe) "Final Skill Score" =
      .ok (Config.WEIGHTS "code_quality" * calculate_code_quality cd +
        Config.WEIGHTS "authorship_confidence" *
          calculate_authorship_confidence cd tc +
        Config.WEIGHTS "commit_maturity" * calculate_commit_maturity cd +
        Config.WEIGHTS "project_complexity" *
          calculate_project_complexity cd af fe) := by
    unfold validate_score
    rw [if_pos ⟨by rw [w1, w2, w3, w4]; nlinarith, by
      rw [w1, w2, w3, w4]; nlinarith⟩]
  unfold calculate_skill_score
  rw [v1]
  dsimp only
  rw [v2]
  dsimp only
  rw [v3]
  dsimp only
  rw [v4]
  dsimp only
  rw [v5]

/-- C1: for every contributor record with churn rate in `[0, 1]` (the
aggregator's invariant), `calculate_skill_score` reports each sub-score in
`[0, 100]` and a skill score equal, to within two-decimal rounding, to
`0.35×code_quality + 0.25×authorship_confidence + 0.20×commit_maturity +
0.10×project_complexity`, itself in `[0, 100]`. -/
theorem skill_score_weighted_formula (cd : ContributorData) (tc : ℕ)
    (af : List String) (fe : List (String × ℕ))
    (h0 : 0 ≤ cd.churn_rate) (h1 : cd.churn_rate ≤ 1) :
    calculate_skill_score cd tc af fe = Except.ok
      { skill_score := round2 (35/100 * calculate_code_quality cd +
          25/100 * calculate_authorship_confidence cd tc +
          20/100 * calculate_commit_maturity cd +
          10/100 * calculate_project_complexity cd af fe)
        code_quality := round2 (calculate_code_quality cd)
        authorship_confidence := round2 (calculate_authorship_confidence cd tc)
        commit_maturity := round2 (calculate_commit_maturity cd)
        project_complexity := round2 (calculate_project_complexity cd af fe) } ∧
    (0 ≤ calculate_code_quality cd ∧ calculate_code_quality cd ≤ 100) ∧
    (0 ≤ calculate_authorship_confidence cd tc ∧
      calculate_authorship_confidence cd tc ≤ 100) ∧
    (0 ≤ calculate_commit_maturity cd ∧ calculate_commit_maturity cd ≤ 100) ∧
    (0 ≤ calculate_project_complexity cd af fe ∧
      calculate_project_complexity cd af fe ≤ 100) ∧
    |round2 (35/100 * calculate_code_quality cd +
        25/100 * calculate_authorship_confidence cd tc +
        20/100 * calculate_commit_maturity cd +
        10/100 * calculate_project_complexity cd af fe) -
      (35/100 * calculate_code_quality cd +
        25/100 * calculate_authorship_confidence cd tc +
        20/100 * calculate_commit_maturity cd +
        10/100 * calculate_project_complexity cd af fe)| ≤ 1/200 ∧
    0 ≤ round2 (35/100 * calculate_code_quality cd +
        25/100 * calculate_authorship_confidence cd tc +
        20/100 * calculate_commit_maturity cd +
        10/100 * calculate_project_complexity cd af fe) ∧
    round2 (35/100 * calculate_code_quality cd +
        25/100 * calculate_authorship_confidence cd tc +
        20/100 * calculate_commit_maturity cd +
        10/100 * calculate_project_complexity cd af fe) ≤ 100 := by
  obtain ⟨hcq0, hcq1⟩ := code_quality_bounds cd h0 h1
  obtain ⟨hac0, hac1⟩ := authorship_confidence_bounds cd tc
  obtain ⟨hcm0, hcm1⟩ := commit_maturity_bounds cd
  obtain ⟨hpc0, hpc1⟩ := project_complexity_bounds cd af fe
  have hok := calculate_skill_score_ok cd tc af fe h0 h1
  have w1 : Config.WEIGHTS "code_quality" = 35/100 := by simp [Config.WEIGHTS]
  have w2 : Config.WEIGHTS "authorship_confidence" = 25/100 := by
    simp [Config.WEIGHTS]
  have w3 : Config.WEIGHTS "commit_maturity" = 20/100 := by
    simp [Config.WEIGHTS]
  have w4 : Config.WEIGHTS "project_complexity" = 10/100 := by
    simp [Config.WEIGHTS]
  rw [w1, w2, w3, w4] at hok
  refine ⟨hok, ⟨hcq0, hcq1⟩, ⟨hac0, hac1⟩, ⟨by linarith, hcm1⟩, ⟨hpc0, hpc1⟩,
    round2_close _, round2_nonneg _ (by linarith), ?_⟩
  have := round2_le_int (35/100 * calculate_code_quality cd +
      25/100 * calculate_authorship_confidence cd tc +
      20/100 * calculate_commit_maturity cd +
      10/100 * calculate_project_complexity cd af fe) 100 (by linarith)
  exact_mod_cast this

/-- Witness for `skill_score_weighted_formula` at the zero-activity
contributor record. -/
theorem skill_score_weighted_formula_witness :
    (0 : ℚ) ≤ defaultContributor.churn_rate ∧
    defaultContributor.churn_rate ≤ 1 ∧
    (0 ≤ calculate_code_quality defaultContributor ∧
      calculate_code_quality defaultContributor ≤ 100) :=
  ⟨by norm_num [defaultContributor], by norm_num [defaultContributor],
    (skill_score_weighted_formula defaultContributor 0 [] []
      (by norm_num [defaultContributor])
      (by norm_num [defaultContributor])).2.1⟩

/-- C10: for aggregator-shaped contributor records (churn rate in
`[0, 1]`, naturally nonnegative counts) `calculate_skill_score` never
takes the `ValueError` branch: it returns `.ok`, every sub-score is in
`[0, 100]`, commit maturity is in fact at least 30, and the combined
skill score lies in `[0, 90]`. -/
theorem calculate_skill_score_no_value_error (cd : ContributorData) (tc : ℕ)
    (af : List String) (fe : List (String × ℕ))
    (h0 : 0 ≤ cd.churn_rate) (h1 : cd.churn_rate ≤ 1) :
    calculate_skill_score cd tc af fe = Except.ok
      { skill_score := round2 (Config.WEIGHTS "code_quality" *
            calculate_code_quality cd +
          Config.WEIGHTS "authorship_confidence" *
            calculate_authorship_confidence cd tc +
          Config.WEIGHTS "commit_maturity" * calculate_commit_maturity cd +
          Config.WEIGHTS "project_complexity" *
            calculate_project_complexity cd af fe)
        code_quality := round2 (calculate_code_quality cd)
        authorship_confidence := round2 (calculate_authorship_confidence cd tc)
        commit_maturity := round2 (calculate_commit_maturity cd)
        project_complexity := round2 (calculate_project_complexity cd af fe) } ∧
    (0 ≤ calculate_code_quality cd ∧ calculate_code_quality cd ≤ 100) ∧
    (0 ≤ calculate_authorship_confidence cd tc ∧
      calculate_authorship_confidence cd tc ≤ 100) ∧
    30 ≤ calculate_commit_maturity cd ∧ calculate_commit_maturity cd ≤ 100 ∧
    (0 ≤ calculate_project_complexity cd af fe ∧
      calculate_project_complexity cd af fe ≤ 100) ∧
    0 ≤ round2 (Config.WEIGHTS "code_quality" * calculate_code_quality cd +
        Config.WEIGHTS "authorship_confidence" *
          calculate_authorship_confidence cd tc +
        Config.WEIGHTS "commit_maturity" * calculate_commit_maturity cd +
        Config.WEIGHTS "project_complexity" *
          calculate_project_complexity cd af fe) ∧
    round2 (Config.WEIGHTS "code_quality" * calculate_code_quality cd +
        Config.WEIGHTS "authorship_confidence" *
          calculate_authorship_confidence cd tc +
        Config.WEIGHTS "commit_maturity" * calculate_commit_maturity cd +
        Config.WEIGHTS "project_complexity" *
          calculate_project_complexity cd af fe) ≤ 90 := by
  obtain ⟨hcq0, hcq1⟩ := code_quality_bounds cd h0 h1
  obtain ⟨hac0, hac1⟩ := authorship_confidence_bounds cd tc
  obtain ⟨hcm0, hcm1⟩ := commit_maturity_bounds cd
  obtain ⟨hpc0, hpc1⟩ := project_complexity_bounds cd af fe
  have w1 : Config.WEIGHTS "code_quality" = 35/100 := by simp [Config.WEIGHTS]
  have w2 : Config.WEIGHTS "authorship_confidence" = 25/100 := by
    simp [Config.WEIGHTS]
  have w3 : Config.WEIGHTS "commit_maturity" = 20/100 := by
    simp [Config.WEIGHTS]
  have w4 : Config.WEIGHTS "project_complexity" = 10/100 := by
    simp [Config.WEIGHTS]
  refine ⟨calculate_skill_score_ok cd tc af fe h0 h1, ⟨hcq0, hcq1⟩,
    ⟨hac0, hac1⟩, hcm0, hcm1, ⟨hpc0, hpc1⟩, ?_, ?_⟩
  · refine round2_nonneg _ ?_
    rw [w1, w2, w3, w4]
    linarith
  · rw [w1, w2, w3, w4]
    have := round2_le_int (35/100 * calculate_code_quality cd +
        25/100 * calculate_authorship_confidence cd tc +
        20/100 * calculate_commit_maturity cd +
        10/100 * calculate_project_complexity cd af fe) 90 (by linarith)
    exact_mod_cast this

/-- Witness for `calculate_skill_score_no_value_error` at the
zero-activity contributor record. -/
theorem calculate_skill_score_no_value_error_witness :
    (0 : ℚ) ≤ defaultContributor.churn_rate ∧
    defaultContributor.churn_rate ≤ 1 ∧
    30 ≤ calculate_commit_maturity defaultContributor :=
  ⟨by norm_num [defaultContributor], by norm_num [defaultContributor],
    (calculate_skill_score_no_value_error defaultContributor 0 [] []
      (by norm_num [defaultContributor])
      (by norm_num [defaultContributor])).2.2.2.1⟩
